import Mathlib

/-!
# JobBot chat widget: embedding of the browser-side controllers

The three source files (`api-client.js`, `chat-ui.js`, `booking-flow.js`) are
embedded as pure functions over an explicit page state.

* JavaScript strings are Lean `String`s; the platform string operations the code
  relies on (`trim`, the `textContent`/`innerHTML` escaping, the four regular
  expression replacements of `formatMessage`, `JSON.stringify` of a slot) are
  written out over `List Char`.
* An `async` method is split at its `await`: a `...Begin` function is the part
  that runs synchronously when the method is called, a `...Settle` function is
  the continuation, which receives the outcome of the outbound call.
* A `throw` is explicit: functions that can throw return `Completion`, which
  carries the state reached when the exception left the function.
* The clock, the random session suffix and the label the confirm button has in
  the page markup are inputs.
-/

namespace JobBot

/-! ## Strings -/

/-- WhiteSpace and LineTerminator code points, the ones `String.prototype.trim` strips. -/
def isJsWhitespace (c : Char) : Bool :=
  c.toNat = 0x09 || c.toNat = 0x0A || c.toNat = 0x0B || c.toNat = 0x0C || c.toNat = 0x0D ||
  c.toNat = 0x20 || c.toNat = 0xA0 || c.toNat = 0x1680 ||
  (0x2000 ≤ c.toNat && c.toNat ≤ 0x200A) ||
  c.toNat = 0x2028 || c.toNat = 0x2029 || c.toNat = 0x202F || c.toNat = 0x205F ||
  c.toNat = 0x3000 || c.toNat = 0xFEFF

/-- Characters of `s.trim()`. -/
def trimChars (s : List Char) : List Char :=
  ((s.dropWhile isJsWhitespace).reverse.dropWhile isJsWhitespace).reverse

/-- The method `String.prototype.trim`. -/
def trim (s : String) : String := ⟨trimChars s.data⟩

/-- Serialisation of one character of a text node (HTML fragment serialisation:
`&`, no-break space, `<` and `>` are replaced by character references). -/
def escapeChar (c : Char) : List Char :=
  if c = '&' then "&amp;".data
  else if c = '<' then "&lt;".data
  else if c = '>' then "&gt;".data
  else if c.toNat = 0xA0 then "&nbsp;".data
  else [c]

/-- Characters of `escapeHtml(text)`. -/
def escapeChars (s : List Char) : List Char := s.flatMap escapeChar

/-- The method `escapeHtml(text)`: `div.textContent = text; return div.innerHTML`. -/
def escapeHtml (text : String) : String := ⟨escapeChars text.data⟩

/-- Decoding of the character references `escapeHtml` produces, as the HTML tokenizer
does it in text content (`&amp;`, `&lt;`, `&gt;`, `&nbsp;`); `fuel` bounds the number of
characters produced. -/
def decodeEntitiesAux : Nat → List Char → List Char
  | 0, s => s
  | _ + 1, [] => []
  | fuel + 1, c :: rest =>
    if c = '&' then
      if "amp;".data.isPrefixOf rest then '&' :: decodeEntitiesAux fuel (rest.drop 4)
      else if "lt;".data.isPrefixOf rest then '<' :: decodeEntitiesAux fuel (rest.drop 3)
      else if "gt;".data.isPrefixOf rest then '>' :: decodeEntitiesAux fuel (rest.drop 3)
      else if "nbsp;".data.isPrefixOf rest then
        Char.ofNat 0xA0 :: decodeEntitiesAux fuel (rest.drop 5)
      else c :: decodeEntitiesAux fuel rest
    else c :: decodeEntitiesAux fuel rest

/-- Decoding of a whole text. -/
def decodeEntities (s : List Char) : List Char := decodeEntitiesAux s.length s

/-- Line terminators: the characters the regular expression `.` does not match. -/
def isLineTerminator (c : Char) : Bool :=
  c.toNat = 0x0A || c.toNat = 0x0D || c.toNat = 0x2028 || c.toNat = 0x2029

/-- Lazy match of `(.*?)` followed by the literal `delim`, tried at the start of the
input: the shortest run of non-line-terminator characters after which `delim`
occurs. Returns the captured run and the input left after `delim`. -/
def lazyUntil (delim : List Char) : List Char → Option (List Char × List Char)
  | [] => if delim.isPrefixOf [] then some ([], []) else none
  | c :: cs =>
    if delim.isPrefixOf (c :: cs) then some ([], (c :: cs).drop delim.length)
    else if isLineTerminator c then none
    else match lazyUntil delim cs with
      | some (inner, rest) => some (c :: inner, rest)
      | none => none

/-- Global replacement `text.replace(/D(.*?)D/g, 'L$1R')` for a literal delimiter `D`,
scanning left to right; `fuel` bounds the number of scan steps. -/
def replaceDelimitedAux (delim left right : List Char) : Nat → List Char → List Char
  | 0, s => s
  | _ + 1, [] => []
  | fuel + 1, c :: cs =>
    if delim.isPrefixOf (c :: cs) then
      match lazyUntil delim ((c :: cs).drop delim.length) with
      | some (inner, rest) => left ++ inner ++ right ++ replaceDelimitedAux delim left right fuel rest
      | none => c :: replaceDelimitedAux delim left right fuel cs
    else c :: replaceDelimitedAux delim left right fuel cs

/-- Global replacement with enough fuel for the whole input. -/
def replaceDelimited (delim left right : List Char) (s : List Char) : List Char :=
  replaceDelimitedAux delim left right s.length s

/-- Replacement `text.replace(/\n/g, '<br>')`. -/
def replaceNewlines (s : List Char) : List Char :=
  s.flatMap (fun c => if c = '\n' then "<br>".data else [c])

/-- The method `formatMessage(text)`: bold, italics, inline code, line breaks. -/
def formatMessage (text : String) : String :=
  ⟨replaceNewlines
    (replaceDelimited [Char.ofNat 96] "<code>".data "</code>".data
      (replaceDelimited ['*'] "<em>".data "</em>".data
        (replaceDelimited ['*', '*'] "<strong>".data "</strong>".data text.data)))⟩

/-- Hexadecimal digit (lower case). -/
def hexDigit (n : Nat) : Char :=
  if n < 10 then Char.ofNat (48 + n) else Char.ofNat (87 + n)

/-- Escape of one character inside a `JSON.stringify` string. -/
def jsonEscapeChar (c : Char) : List Char :=
  if c = '"' then ['\\', '"']
  else if c = '\\' then ['\\', '\\']
  else if c.toNat = 0x08 then ['\\', 'b']
  else if c.toNat = 0x09 then ['\\', 't']
  else if c.toNat = 0x0A then ['\\', 'n']
  else if c.toNat = 0x0C then ['\\', 'f']
  else if c.toNat = 0x0D then ['\\', 'r']
  else if c.toNat < 0x20 then
    ['\\', 'u', '0', '0', hexDigit (c.toNat / 16), hexDigit (c.toNat % 16)]
  else [c]

/-- Result of `JSON.stringify` on a string. -/
def jsonQuote (s : String) : String :=
  "\"" ++ String.mk (s.data.flatMap jsonEscapeChar) ++ "\""

/-! ## JavaScript values -/

/-- A value as `response.json()` yields it. A number is identified by the text
`Number::toString` gives for it (so zero is the number whose text is `0`). -/
inductive JsVal where
  | undefined
  | null
  | bool (b : Bool)
  | num (text : String)
  | str (s : String)
  | arr (items : List JsVal)
  | obj (props : List (String × JsVal))

namespace JsVal

/-- ToBoolean. -/
def truthy : JsVal → Bool
  | undefined => false
  | null => false
  | bool b => b
  | num t => !(t = "0" || t = "NaN")
  | str s => !(s = "")
  | arr _ => true
  | obj _ => true

mutual
/-- ToString. An object is converted through `toString`/`valueOf`: a parsed JSON object
with an own `toString` property (never callable) cannot be converted and a TypeError is
thrown; any other object gives `[object Object]`. -/
def toStr : JsVal → Except String String
  | undefined => .ok "undefined"
  | null => .ok "null"
  | bool b => .ok (if b then "true" else "false")
  | num t => .ok t
  | str s => .ok s
  | arr items => joinItems items
  | obj props =>
    if (props.lookup "toString").isSome then
      .error "TypeError: Cannot convert object to primitive value"
    else .ok "[object Object]"
/-- The method `Array.prototype.join` with the default separator: `undefined` and `null`
elements give the empty string, the others are converted in order. -/
def joinItems : List JsVal → Except String String
  | [] => .ok ""
  | [x] => itemStr x
  | x :: y :: rest =>
    match itemStr x with
    | .error e => .error e
    | .ok s =>
      match joinItems (y :: rest) with
      | .error e => .error e
      | .ok t => .ok (s ++ "," ++ t)
/-- Text of one array element inside `join`. -/
def itemStr : JsVal → Except String String
  | undefined => .ok ""
  | null => .ok ""
  | bool b => .ok (if b then "true" else "false")
  | num t => .ok t
  | str s => .ok s
  | arr items => joinItems items
  | obj props =>
    if (props.lookup "toString").isSome then
      .error "TypeError: Cannot convert object to primitive value"
    else .ok "[object Object]"
end

/-- Conversion of a value assigned to `textContent` (a nullable DOMString):
`null` and `undefined` give the empty text, anything else its ToString, which can throw. -/
def textContentOf : JsVal → Except String String
  | undefined => .ok ""
  | null => .ok ""
  | v => v.toStr

end JsVal

/-- Where an exception left a function: the state reached, and the error. -/
inductive Completion (σ : Type) where
  | normal (state : σ)
  | thrown (state : σ) (error : String)

/-- The state a function left behind, however it completed. -/
def Completion.state {σ : Type} : Completion σ → σ
  | .normal s => s
  | .thrown s _ => s

/-- Property read `base[key]` for the field names this program uses (none of which
is a built-in property of a string, an array or a primitive wrapper): reading a
property of `undefined` or `null` throws, an object gives its own property. -/
def getProp (base : JsVal) (key : String) : Except String JsVal :=
  match base with
  | .undefined => .error ("TypeError: Cannot read properties of undefined (reading " ++ key ++ ")")
  | .null => .error ("TypeError: Cannot read properties of null (reading " ++ key ++ ")")
  | .obj props => .ok ((props.lookup key).getD .undefined)
  | _ => .ok .undefined

/-- The method `toLowerCase()` called on a property value: only a string has it.
Letters outside ASCII are left as they are in this embedding. -/
def toLowerCase (receiver : JsVal) : Except String String :=
  match receiver with
  | .str s => .ok (s.map Char.toLower)
  | .undefined => .error "TypeError: Cannot read properties of undefined (reading toLowerCase)"
  | .null => .error "TypeError: Cannot read properties of null (reading toLowerCase)"
  | _ => .error "TypeError: toLowerCase is not a function"

/-! ## Data model -/

/-- One available time slot of a response. -/
structure Slot where
  display : String
  start_time : String
  end_time : String
deriving DecidableEq

/-- Response envelope of `POST /chat/message`. An absent `booking_data` is
`JsVal.undefined`; an absent list is `none`. -/
structure Response where
  message : String
  message_type : String
  conversation_state : String
  booking_data : JsVal
  available_slots : Option (List Slot)
  suggested_actions : Option (List String)

/-- The expression `response.booking_data || {}`. -/
def Response.bookingDataOrEmpty (response : Response) : JsVal :=
  if response.booking_data.truthy then response.booking_data else .obj []

/-- Result of `POST /booking/confirm`. -/
structure Confirmation where
  status : String
  confirmation_message : String
  job_dossier : Option String

/-- How an outbound call settles: `makeRequest` resolves to the parsed body or throws. -/
inductive CallResult (α : Type) where
  | ok (response : α)
  | failed (error : String)

/-- Body of an outbound request, before `JSON.stringify`. -/
inductive Payload where
  | chatMessage (content : String) (session_id : String)
      (conversation_state : Option String) (timestamp : String)
  | bookingConfirm (session_id : String) (booking_data : JsVal)

/-- An outbound request as `makeRequest` issues it. -/
structure Request where
  url : String
  method : String
  contentType : String
  payload : Payload

/-- What the clock reads: `getCurrentTime()` and `new Date().toISOString()`. -/
structure Clock where
  timeString : String
  isoString : String

/-- Which display function built a transcript entry. -/
inductive EntryKind where
  | user
  | bot
  | error
deriving DecidableEq

/-- A child of the `chatMessages` element. -/
structure Entry where
  kind : EntryKind
  className : String
  innerHTML : String
deriving DecidableEq

/-- Fields of an `APIClient` instance. -/
structure APIClient where
  baseURL : String
  sessionId : String
deriving DecidableEq

/-- The confirm button of the booking modal. -/
structure Button where
  textContent : String
  disabled : Bool
deriving DecidableEq

/-- Fields of the `ChatUI` instance and of the elements it holds. -/
structure ChatUI where
  apiClient : APIClient
  chatMessages : List Entry
  messageInputValue : String
  sendButtonDisabled : Bool
  typingIndicatorDisplay : String
  currentConversationState : Option String
  bookingData : JsVal

/-- Fields of the `BookingFlow` instance and of the elements it holds. -/
structure BookingFlow where
  apiClient : APIClient
  bookingModalDisplay : String
  successModalDisplay : String
  bookingSummary : String
  successMessage : String
  currentBookingData : JsVal

/-- The page: both controllers, whether each is installed on `window`, the confirm
button, the pending `setTimeout` bot messages, the captured label of each pending
`confirmBooking` continuation, and two histories: the requests issued so far and
the booking data of each summary overlay shown so far. -/
structure Page where
  chatUI : ChatUI
  bookingFlow : BookingFlow
  windowChatUI : Bool
  windowBookingFlow : Bool
  confirmButton : Button
  timers : List Response
  pendingConfirms : List String
  requests : List Request
  shownSummaries : List JsVal
  clock : Clock

/-! ## api-client.js -/

namespace APIClient

/-- The method `generateSessionId()`, from the clock reading `Date.now()` and the random
suffix `Math.random().toString(36).substr(2, 9)`. -/
def generateSessionId (now : Nat) (suffix : String) : String :=
  "session_" ++ toString now ++ "_" ++ suffix

/-- The constructor. -/
def new (now : Nat) (suffix : String) : APIClient :=
  { baseURL := "/api/v1", sessionId := generateSessionId now suffix }

/-- The request `makeRequest(endpoint, options)` issues. -/
def makeRequest (c : APIClient) (endpoint method : String) (payload : Payload) : Request :=
  { url := c.baseURL ++ endpoint, method := method, contentType := "application/json",
    payload := payload }

/-- The request of `sendMessage(content, conversationState)`. -/
def sendMessage (c : APIClient) (clock : Clock) (content : String)
    (conversationState : Option String) : Request :=
  c.makeRequest "/chat/message" "POST"
    (.chatMessage content c.sessionId conversationState clock.isoString)

/-- The request of `confirmBooking(bookingData)`. -/
def confirmBooking (c : APIClient) (bookingData : JsVal) : Request :=
  c.makeRequest "/booking/confirm" "POST" (.bookingConfirm c.sessionId bookingData)

end APIClient

/-! ## chat-ui.js -/

namespace ChatUI

/-- The template every transcript entry is filled from. -/
def bubbleHtml (content time : String) : String :=
  "\n            <div class=\"message-content\">" ++ content ++ "</div>\n"
  ++ "            <div class=\"message-time\">" ++ time ++ "</div>\n        "

/-- Append an element to `chatMessages`. -/
def appendEntry (p : Page) (e : Entry) : Page :=
  { p with chatUI := { p.chatUI with chatMessages := p.chatUI.chatMessages ++ [e] } }

/-- The entry `displayUserMessage(message)` builds. -/
def userEntry (clock : Clock) (message : String) : Entry :=
  { kind := .user, className := "message-bubble user",
    innerHTML := bubbleHtml (escapeHtml message) clock.timeString }

/-- The method `displayUserMessage(message)`. -/
def displayUserMessage (p : Page) (message : String) : Page :=
  appendEntry p (userEntry p.clock message)

/-- The entry `displayErrorMessage(message)` builds. -/
def errorEntry (clock : Clock) (message : String) : Entry :=
  { kind := .error, className := "message-bubble bot error",
    innerHTML := bubbleHtml (escapeHtml message) clock.timeString }

/-- The method `displayErrorMessage(message)`. -/
def displayErrorMessage (p : Page) (message : String) : Page :=
  appendEntry p (errorEntry p.clock message)

/-- Result of `JSON.stringify(slot)`. -/
def slotJson (slot : Slot) : String :=
  "\x7b\"display\":" ++ jsonQuote slot.display ++ ",\"start_time\":" ++ jsonQuote slot.start_time
  ++ ",\"end_time\":" ++ jsonQuote slot.end_time ++ "\x7d"

/-- The `onclick` attribute value of a slot button. -/
def slotOnclick (slot : Slot) : String :=
  "chatUI.handleTimeslotSelection('" ++ escapeHtml slot.display ++ "')"

/-- The button one slot is mapped to in `createTimeslotSelection`. -/
def slotButton (slot : Slot) : String :=
  "<button class=\"timeslot-btn\" onclick=\"" ++ slotOnclick slot ++ "\" data-slot='"
  ++ slotJson slot ++ "'>\n"
  ++ "                <div class=\"slot-time\">" ++ escapeHtml slot.display ++ "</div>\n"
  ++ "                <div class=\"slot-duration\">" ++ slot.start_time ++ " - " ++ slot.end_time
  ++ "</div>\n"
  ++ "            </button>"

/-- The method `createTimeslotSelection(availableSlots)`, called with an array. -/
def createTimeslotSelection (availableSlots : List Slot) : String :=
  if availableSlots.length = 0 then "<div class=\"no-slots\">No available slots</div>"
  else
    let slotsHtml := String.join (availableSlots.map slotButton)
    "<div class=\"timeslot-selection\">\n"
    ++ "            <div class=\"timeslot-header\">Available Time Slots:</div>\n"
    ++ "            <div class=\"timeslot-grid\">" ++ slotsHtml ++ "</div>\n"
    ++ "        </div>"

/-- The button one action is mapped to in `createSuggestedActions`. -/
def actionButton (action : String) : String :=
  "<button class=\"action-btn\" onclick=\"chatUI.handleSuggestedAction('" ++ escapeHtml action
  ++ "')\">" ++ escapeHtml action ++ "</button>"

/-- The method `createSuggestedActions(actions)`. -/
def createSuggestedActions (actions : List String) : String :=
  "<div class=\"suggested-actions\">" ++ String.join (actions.map actionButton) ++ "</div>"

/-- The text `displayBotMessage` hands to `formatMessage`. -/
def botContent (response : Response) : String :=
  match response.message_type == "timeslot_selection", response.available_slots with
  | true, some slots => response.message ++ createTimeslotSelection slots
  | _, _ =>
    match response.suggested_actions with
    | some actions =>
      if actions.length > 0 then response.message ++ createSuggestedActions actions
      else response.message
    | none => response.message

/-- The entry `displayBotMessage(response)` builds. -/
def botEntry (clock : Clock) (response : Response) : Entry :=
  { kind := .bot, className := "message-bubble bot " ++ response.message_type,
    innerHTML := bubbleHtml (formatMessage (botContent response)) clock.timeString }

/-- The method `displayBotMessage(response)`. -/
def displayBotMessage (p : Page) (response : Response) : Page :=
  appendEntry p (botEntry p.clock response)

/-- The method `showTypingIndicator()`. -/
def showTypingIndicator (p : Page) : Page :=
  { p with chatUI := { p.chatUI with typingIndicatorDisplay := "flex" } }

/-- The method `hideTypingIndicator()`. -/
def hideTypingIndicator (p : Page) : Page :=
  { p with chatUI := { p.chatUI with typingIndicatorDisplay := "none" } }

/-- The welcome message of `showWelcomeMessage`. -/
def welcomeMessage : Response :=
  { message := "👋 Hi! I'm JobBot, your AI booking assistant. I can help you book photography, videography, audio, or other freelance services. What's your name?",
    message_type := "text",
    conversation_state := "collecting_contact",
    booking_data := .undefined,
    available_slots := none,
    suggested_actions := some [] }

/-- The method `showWelcomeMessage()`. -/
def showWelcomeMessage (p : Page) : Page :=
  displayBotMessage
    { p with chatUI := { p.chatUI with currentConversationState := some "collecting_contact" } }
    welcomeMessage

/-- The method `resetChat()`. -/
def resetChat (p : Page) : Page :=
  showWelcomeMessage
    { p with chatUI := { p.chatUI with
        chatMessages := [], currentConversationState := none, bookingData := .obj [] } }

/-- The listener of the `input` event, after the user has changed the input to `text`. -/
def onInput (p : Page) (text : String) : Page :=
  { p with chatUI := { p.chatUI with
      messageInputValue := text, sendButtonDisabled := (trim text == "") } }

end ChatUI

/-! ## booking-flow.js -/

namespace BookingFlow

/-- The method `escapeHtml(text)` of the booking controller, whose argument is a
booking-data value: `div.textContent = text; return div.innerHTML`. -/
def escapeHtml (text : JsVal) : Except String String :=
  match text.textContentOf with
  | .error e => .error e
  | .ok content => .ok (JobBot.escapeHtml content)

/-- The method `formatMessage(text)` of the booking controller. -/
def formatMessage (text : String) : String := JobBot.formatMessage text

/-- One row of the `fields` table of `formatBookingSummary`. -/
structure Field where
  key : String
  label : String
  icon : String
deriving DecidableEq

/-- The `fields` table of `formatBookingSummary`. -/
def fields : List Field :=
  [ { key := "job_type", label := "Job Type", icon := "🎯" },
    { key := "date", label := "Date", icon := "📅" },
    { key := "duration", label := "Duration", icon := "⏱️" },
    { key := "location", label := "Location", icon := "📍" },
    { key := "budget", label := "Budget", icon := "💰" },
    { key := "contact_name", label := "Contact Name", icon := "👤" },
    { key := "phone", label := "Phone", icon := "📞" },
    { key := "email", label := "Email", icon := "📧" } ]

/-- The block appended for one field, given the text of its escaped value. -/
def fieldBlock (icon label value : String) : String :=
  "\n                <div class=\"booking-field\">\n"
  ++ "                    <div class=\"field-icon\">" ++ icon ++ "</div>\n"
  ++ "                    <div class=\"field-content\">\n"
  ++ "                        <div class=\"field-label\">" ++ label ++ "</div>\n"
  ++ "                        <div class=\"field-value\">" ++ value ++ "</div>\n"
  ++ "                    </div>\n"
  ++ "                </div>\n"
  ++ "            "

/-- The expression `x || 'Not specified'`. -/
def orNotSpecified (x : JsVal) : JsVal :=
  if x.truthy then x else .str "Not specified"

/-- One step of the `fields.forEach` loop: read the field, append its block. -/
def appendField (bookingData : JsVal) (acc : Except String String) (field : Field) :
    Except String String :=
  match acc with
  | .error e => .error e
  | .ok summaryHtml =>
    match getProp bookingData field.key with
    | .error e => .error e
    | .ok x =>
      match escapeHtml (orNotSpecified x) with
      | .error e => .error e
      | .ok value => .ok (summaryHtml ++ fieldBlock field.icon field.label value)

/-- The method `formatBookingSummary(bookingData)`; `Except.error` is a thrown exception. -/
def formatBookingSummary (bookingData : JsVal) : Except String String :=
  match fields.foldl (appendField bookingData) (.ok "<div class=\"booking-summary-content\">") with
  | .error e => .error e
  | .ok summaryHtml =>
    match getProp bookingData "details" with
    | .error e => .error e
    | .ok details =>
      if details.truthy then
        match escapeHtml details with
        | .error e => .error e
        | .ok value => .ok (summaryHtml ++ fieldBlock "📝" "Additional Notes" value ++ "</div>")
      else .ok (summaryHtml ++ "</div>")

/-- The method `showBookingSummary(bookingData)`. The deferred `focus()` call is not part
of the state. -/
def showBookingSummary (p : Page) (bookingData : JsVal) : Completion Page :=
  let p1 := { p with bookingFlow := { p.bookingFlow with currentBookingData := bookingData } }
  match formatBookingSummary bookingData with
  | .error e => .thrown p1 e
  | .ok summary =>
    .normal { p1 with
      bookingFlow := { p1.bookingFlow with bookingSummary := summary, bookingModalDisplay := "flex" },
      shownSummaries := p1.shownSummaries ++ [bookingData] }

/-- The dossier block of the confirmed branch of `showSuccessMessage`. -/
def dossierBlock (job_dossier : Option String) : String :=
  match job_dossier with
  | some d =>
    if d = "" then ""
    else
      "\n                        <div class=\"job-dossier\">\n"
      ++ "                            <h4>Job Dossier</h4>\n"
      ++ "                            <pre>" ++ JobBot.escapeHtml d ++ "</pre>\n"
      ++ "                        </div>\n"
      ++ "                    "
  | none => ""

/-- The markup `showSuccessMessage(confirmation)` builds. -/
def successHtml (confirmation : Confirmation) : String :=
  if confirmation.status = "CONFIRMED" then
    "\n                <div class=\"success-content\">\n"
    ++ "                    <div class=\"success-icon\">✅</div>\n"
    ++ "                    <div class=\"success-title\">Booking Confirmed!</div>\n"
    ++ "                    <div class=\"success-message\">"
    ++ formatMessage confirmation.confirmation_message ++ "</div>\n"
    ++ "                    " ++ dossierBlock confirmation.job_dossier ++ "\n"
    ++ "                </div>\n"
    ++ "            "
  else
    "\n                <div class=\"success-content\">\n"
    ++ "                    <div class=\"success-icon\">⚠️</div>\n"
    ++ "                    <div class=\"success-title\">Booking Received</div>\n"
    ++ "                    <div class=\"success-message\">"
    ++ JobBot.escapeHtml confirmation.confirmation_message ++ "</div>\n"
    ++ "                </div>\n"
    ++ "            "

/-- The method `showSuccessMessage(confirmation)`. -/
def showSuccessMessage (p : Page) (confirmation : Confirmation) : Page :=
  { p with bookingFlow := { p.bookingFlow with
      successMessage := successHtml confirmation, successModalDisplay := "flex" } }

/-- The method `showErrorMessage(message)`. -/
def showErrorMessage (p : Page) (message : String) : Page :=
  if p.windowChatUI then ChatUI.displayErrorMessage p message else p

/-- The method `closeModals()`. -/
def closeModals (p : Page) : Page :=
  { p with bookingFlow := { p.bookingFlow with
      bookingModalDisplay := "none", successModalDisplay := "none" } }

/-- The method `confirmBooking()` up to its `await`: the guard, the busy state of the
confirm button, and the outbound call. -/
def confirmBookingBegin (p : Page) : Page :=
  if !p.bookingFlow.currentBookingData.truthy then p
  else
    { p with
      confirmButton := { textContent := "Processing...", disabled := true },
      requests := p.requests ++
        [p.bookingFlow.apiClient.confirmBooking p.bookingFlow.currentBookingData] }

/-- The method `confirmBooking()` after its `await`; `originalText` is the label the call
captured before it set the busy label. -/
def confirmBookingSettle (originalText : String) (p : Page) (result : CallResult Confirmation) :
    Page :=
  match result with
  | .ok response =>
    showSuccessMessage
      { p with bookingFlow := { p.bookingFlow with bookingModalDisplay := "none" } } response
  | .failed _ =>
    showErrorMessage
      { p with confirmButton := { textContent := originalText, disabled := false } }
      "Failed to confirm booking. Please try again."

/-- The method `confirmBooking()` run to completion, the outbound call settling with `result`. -/
def confirmBooking (p : Page) (result : CallResult Confirmation) : Page :=
  if !p.bookingFlow.currentBookingData.truthy then p
  else confirmBookingSettle p.confirmButton.textContent (confirmBookingBegin p) result

end BookingFlow

namespace ChatUI

/-- The `successMessage` object of `handleBookingCompletion`. -/
def completionMessage (jobType : String) : Response :=
  { message := "🎉 Booking confirmed! Your " ++ jobType
      ++ " session has been scheduled and added to your calendar.",
    message_type := "confirmation",
    conversation_state := "completed",
    booking_data := .undefined,
    available_slots := none,
    suggested_actions := some ["View Calendar", "Start New Booking"] }

/-- The second half of `handleBookingCompletion()`: the delayed success message when the
booking data has a calendar event. -/
def scheduleCompletionMessage (p : Page) : Completion Page :=
  match getProp p.chatUI.bookingData "calendar_event" with
  | .error e => .thrown p e
  | .ok calendarEvent =>
    if calendarEvent.truthy then
      match getProp p.chatUI.bookingData "job_type" with
      | .error e => .thrown p e
      | .ok jobType =>
        match toLowerCase jobType with
        | .error e => .thrown p e
        | .ok lower => .normal { p with timers := p.timers ++ [completionMessage lower] }
    else .normal p

/-- The method `handleBookingCompletion()`. -/
def handleBookingCompletion (p : Page) : Completion Page :=
  if p.windowBookingFlow then
    match BookingFlow.showBookingSummary p p.chatUI.bookingData with
    | .thrown q e => .thrown q e
    | .normal q => scheduleCompletionMessage q
  else scheduleCompletionMessage p

/-- The statements of `sendMessage()` after its guard, up to the `await`: the user entry,
the cleared input, the disabled send button, the typing indicator, the outbound call. -/
def sendMessageIssue (p : Page) (message : String) : Page :=
  let p1 := displayUserMessage p message
  let p2 := { p1 with chatUI := { p1.chatUI with messageInputValue := "", sendButtonDisabled := true } }
  let p3 := showTypingIndicator p2
  { p3 with requests := p3.requests ++
      [p3.chatUI.apiClient.sendMessage p3.clock message p3.chatUI.currentConversationState] }

/-- The method `sendMessage()` up to its `await`. -/
def sendMessageBegin (p : Page) : Page :=
  let message := trim p.chatUI.messageInputValue
  if message = "" then p else sendMessageIssue p message

/-- The `catch` block of `sendMessage()`. -/
def sendMessageCatch (p : Page) : Page :=
  displayErrorMessage (hideTypingIndicator p) "Sorry, I encountered an error. Please try again."

/-- The statements of the `try` block of `sendMessage()` between the `await` and the
completion check: hide the typing indicator, take over the state label and the booking
data, display the response. -/
def sendMessageReceive (p : Page) (response : Response) : Page :=
  let p1 := hideTypingIndicator p
  let p2 := { p1 with chatUI := { p1.chatUI with
      currentConversationState := some response.conversation_state,
      bookingData := response.bookingDataOrEmpty } }
  displayBotMessage p2 response

/-- The method `sendMessage()` after its `await`. -/
def sendMessageSettle (p : Page) (result : CallResult Response) : Page :=
  match result with
  | .failed _ => sendMessageCatch p
  | .ok response =>
    let p3 := sendMessageReceive p response
    if response.conversation_state = "completed" then
      match handleBookingCompletion p3 with
      | .normal q => q
      | .thrown q _ => sendMessageCatch q
    else p3

/-- The method `sendMessage()` run to completion, the outbound call (if one is made)
settling with `result`. -/
def sendMessage (p : Page) (result : CallResult Response) : Page :=
  if trim p.chatUI.messageInputValue = "" then p
  else sendMessageSettle (sendMessageBegin p) result

/-- The method `handleTimeslotSelection(slotDisplay)` up to the `await` of its send. -/
def handleTimeslotSelectionBegin (p : Page) (slotDisplay : String) : Page :=
  sendMessageBegin { p with chatUI := { p.chatUI with messageInputValue := slotDisplay } }

/-- The method `handleTimeslotSelection(slotDisplay)`, its send run to completion. -/
def handleTimeslotSelection (p : Page) (slotDisplay : String) (result : CallResult Response) :
    Page :=
  sendMessage { p with chatUI := { p.chatUI with messageInputValue := slotDisplay } } result

/-- The method `handleSuggestedAction(action)` up to the `await` of its send. -/
def handleSuggestedActionBegin (p : Page) (action : String) : Page :=
  sendMessageBegin { p with chatUI := { p.chatUI with messageInputValue := action } }

/-- The constructor, on a page whose elements are in their markup state. -/
def new (p : Page) (now : Nat) (suffix : String) : Page :=
  showWelcomeMessage
    { p with chatUI := { p.chatUI with
        apiClient := APIClient.new now suffix,
        currentConversationState := none,
        bookingData := .obj [],
        sendButtonDisabled := true } }

end ChatUI

namespace BookingFlow

/-- The constructor. -/
def new (p : Page) (now : Nat) (suffix : String) : Page :=
  { p with bookingFlow := { p.bookingFlow with
      apiClient := APIClient.new now suffix, currentBookingData := .null } }

/-- The method `editBooking()` up to the `await` of its send. -/
def editBooking (p : Page) : Page :=
  let p1 := closeModals p
  if p1.windowChatUI then
    ChatUI.sendMessageBegin
      { p1 with chatUI := { p1.chatUI with messageInputValue := "I want to edit my booking details" } }
  else p1

/-- The method `startNewBooking()`. -/
def startNewBooking (p : Page) : Page :=
  let p1 := closeModals p
  let p2 := if p1.windowChatUI then ChatUI.resetChat p1 else p1
  { p2 with bookingFlow := { p2.bookingFlow with currentBookingData := .null } }

end BookingFlow

/-! ## The page as a transition system -/

/-- The document before any script has run: empty transcript and input, no inline
styles, the confirm button with the label of the page markup. -/
def blankPage (confirmLabel : String) (clock : Clock) : Page :=
  { chatUI := { apiClient := { baseURL := "", sessionId := "" }, chatMessages := [],
                messageInputValue := "", sendButtonDisabled := false,
                typingIndicatorDisplay := "", currentConversationState := none,
                bookingData := .undefined },
    bookingFlow := { apiClient := { baseURL := "", sessionId := "" }, bookingModalDisplay := "",
                     successModalDisplay := "", bookingSummary := "", successMessage := "",
                     currentBookingData := .undefined },
    windowChatUI := false, windowBookingFlow := false,
    confirmButton := { textContent := confirmLabel, disabled := false },
    timers := [], pendingConfirms := [], requests := [], shownSummaries := [],
    clock := clock }

/-- The two `DOMContentLoaded` listeners: `window.chatUI = new ChatUI()` and
`window.bookingFlow = new BookingFlow()`. Each constructor reads the clock and draws
its own random suffix. -/
def pageLoad (confirmLabel : String) (clock : Clock)
    (chatNow : Nat) (chatSuffix : String) (bookingNow : Nat) (bookingSuffix : String) : Page :=
  let p1 := ChatUI.new (blankPage confirmLabel clock) chatNow chatSuffix
  let p2 := { p1 with windowChatUI := true }
  let p3 := BookingFlow.new p2 bookingNow bookingSuffix
  { p3 with windowBookingFlow := true }

/-- What can happen on the page after load. -/
inductive Event where
  | tick (clock : Clock)
  | input (text : String)
  | clickSend
  | pressEnter
  | clickSlot (slotDisplay : String)
  | clickAction (action : String)
  | chatSettled (result : CallResult Response)
  | timerFired
  | clickConfirm
  | confirmSettled (result : CallResult Confirmation)
  | clickEdit
  | clickNewBooking
  | closeModals

/-- The effect of one event. A click on a disabled button dispatches nothing. -/
def step (p : Page) : Event → Page
  | .tick clock => { p with clock := clock }
  | .input text => ChatUI.onInput p text
  | .clickSend => if p.chatUI.sendButtonDisabled then p else ChatUI.sendMessageBegin p
  | .pressEnter => ChatUI.sendMessageBegin p
  | .clickSlot slotDisplay => ChatUI.handleTimeslotSelectionBegin p slotDisplay
  | .clickAction action => ChatUI.handleSuggestedActionBegin p action
  | .chatSettled result => ChatUI.sendMessageSettle p result
  | .timerFired =>
    match p.timers with
    | [] => p
    | response :: rest => ChatUI.displayBotMessage { p with timers := rest } response
  | .clickConfirm =>
    if p.confirmButton.disabled then p
    else if !p.bookingFlow.currentBookingData.truthy then p
    else
      let q := BookingFlow.confirmBookingBegin p
      { q with pendingConfirms := q.pendingConfirms ++ [p.confirmButton.textContent] }
  | .confirmSettled result =>
    match p.pendingConfirms with
    | [] => p
    | originalText :: rest =>
      BookingFlow.confirmBookingSettle originalText { p with pendingConfirms := rest } result
  | .clickEdit => BookingFlow.editBooking p
  | .clickNewBooking => BookingFlow.startNewBooking p
  | .closeModals => BookingFlow.closeModals p

/-- The page after a sequence of events. -/
def run (p : Page) (events : List Event) : Page := events.foldl step p

/-! ## Reading rendered markup back: the slot buttons of an entry and their clicks

Assigning `innerHTML` runs the HTML tokenizer over the text. The tokenizer below
follows the states of the HTML standard for text, start tags, end tags and attributes
(quoted and unquoted values, names lower-cased, NUL replaced); comments, doctypes and the
raw-text elements are not tokenized further, and of the character references only the
four that `escapeHtml` produces are decoded. That is all the markup this program
generates. -/

/-- A tag token: start or end tag, name, attributes (name and raw value) in source order. -/
structure Tag where
  closing : Bool
  name : List Char
  attrs : List (List Char × List Char)
deriving DecidableEq

/-- Add an attribute to the tag being built. -/
def Tag.addAttr (tag : Tag) (name value : List Char) : Tag :=
  { tag with attrs := tag.attrs ++ [(name, value)] }

/-- The value of an attribute; of duplicates the first counts. -/
def Tag.attr (tag : Tag) (name : String) : Option (List Char) :=
  tag.attrs.lookup name.data

/-- States of the tokenizer. -/
inductive TokState where
  | data
  | tagOpen
  | endTagOpen
  | tagName (tag : Tag)
  | beforeAttrName (tag : Tag)
  | attrName (tag : Tag) (name : List Char)
  | afterAttrName (tag : Tag) (name : List Char)
  | beforeAttrValue (tag : Tag) (name : List Char)
  | attrValueDQ (tag : Tag) (name value : List Char)
  | attrValueSQ (tag : Tag) (name value : List Char)
  | attrValueUnq (tag : Tag) (name value : List Char)
  | afterAttrValueQ (tag : Tag)
  | selfClosing (tag : Tag)
  | bogusComment
deriving DecidableEq

/-- Tab, line feed, form feed, carriage return, space. -/
def isHtmlSpace (c : Char) : Bool :=
  c.toNat = 0x09 || c.toNat = 0x0A || c.toNat = 0x0C || c.toNat = 0x0D || c.toNat = 0x20

/-- A character as it enters a name or a value: NUL becomes U+FFFD. -/
def tokChar (c : Char) : Char :=
  if c.toNat = 0 then Char.ofNat 0xFFFD else c

/-- A character as it enters a tag or attribute name: lower-cased. -/
def nameChar (c : Char) : Char := (tokChar c).toLower

/-- One step of the tokenizer: the next state and the tags emitted. -/
def tokStep : TokState → Char → TokState × List Tag
  | .data, c => if c.toNat = 60 then (.tagOpen, []) else (.data, [])
  | .tagOpen, c =>
    if c.toNat = 33 then (.bogusComment, [])
    else if c.toNat = 47 then (.endTagOpen, [])
    else if c.isAlpha then (.tagName { closing := false, name := [c.toLower], attrs := [] }, [])
    else if c.toNat = 63 then (.bogusComment, [])
    else if c.toNat = 60 then (.tagOpen, [])
    else (.data, [])
  | .endTagOpen, c =>
    if c.isAlpha then (.tagName { closing := true, name := [c.toLower], attrs := [] }, [])
    else if c.toNat = 62 then (.data, [])
    else (.bogusComment, [])
  | .tagName tag, c =>
    if isHtmlSpace c then (.beforeAttrName tag, [])
    else if c.toNat = 47 then (.selfClosing tag, [])
    else if c.toNat = 62 then (.data, [tag])
    else (.tagName { tag with name := tag.name ++ [nameChar c] }, [])
  | .beforeAttrName tag, c =>
    if isHtmlSpace c then (.beforeAttrName tag, [])
    else if c.toNat = 47 then (.selfClosing tag, [])
    else if c.toNat = 62 then (.data, [tag])
    else (.attrName tag [nameChar c], [])
  | .attrName tag name, c =>
    if isHtmlSpace c then (.afterAttrName tag name, [])
    else if c.toNat = 47 then (.selfClosing (tag.addAttr name []), [])
    else if c.toNat = 62 then (.data, [tag.addAttr name []])
    else if c.toNat = 61 then (.beforeAttrValue tag name, [])
    else (.attrName tag (name ++ [nameChar c]), [])
  | .afterAttrName tag name, c =>
    if isHtmlSpace c then (.afterAttrName tag name, [])
    else if c.toNat = 47 then (.selfClosing (tag.addAttr name []), [])
    else if c.toNat = 61 then (.beforeAttrValue tag name, [])
    else if c.toNat = 62 then (.data, [tag.addAttr name []])
    else (.attrName (tag.addAttr name []) [nameChar c], [])
  | .beforeAttrValue tag name, c =>
    if isHtmlSpace c then (.beforeAttrValue tag name, [])
    else if c.toNat = 34 then (.attrValueDQ tag name [], [])
    else if c.toNat = 39 then (.attrValueSQ tag name [], [])
    else if c.toNat = 62 then (.data, [tag.addAttr name []])
    else (.attrValueUnq tag name [tokChar c], [])
  | .attrValueDQ tag name value, c =>
    if c.toNat = 34 then (.afterAttrValueQ (tag.addAttr name value), [])
    else (.attrValueDQ tag name (value ++ [tokChar c]), [])
  | .attrValueSQ tag name value, c =>
    if c.toNat = 39 then (.afterAttrValueQ (tag.addAttr name value), [])
    else (.attrValueSQ tag name (value ++ [tokChar c]), [])
  | .attrValueUnq tag name value, c =>
    if isHtmlSpace c then (.beforeAttrName (tag.addAttr name value), [])
    else if c.toNat = 62 then (.data, [tag.addAttr name value])
    else (.attrValueUnq tag name (value ++ [tokChar c]), [])
  | .afterAttrValueQ tag, c =>
    if isHtmlSpace c then (.beforeAttrName tag, [])
    else if c.toNat = 47 then (.selfClosing tag, [])
    else if c.toNat = 62 then (.data, [tag])
    else (.attrName tag [nameChar c], [])
  | .selfClosing tag, c =>
    if c.toNat = 62 then (.data, [tag])
    else if isHtmlSpace c then (.beforeAttrName tag, [])
    else if c.toNat = 47 then (.selfClosing tag, [])
    else (.attrName tag [nameChar c], [])
  | .bogusComment, c => if c.toNat = 62 then (.data, []) else (.bogusComment, [])

/-- The tokenizer run over a text from a state: the state reached and the tags emitted. -/
def tokRun : List Char → TokState → TokState × List Tag
  | [], st => (st, [])
  | c :: cs, st => ((tokRun cs (tokStep st c).1).1, (tokStep st c).2 ++ (tokRun cs (tokStep st c).1).2)

/-- The tags of a markup text. -/
def tokenize (html : String) : List Tag := (tokRun html.data .data).2

/-- Whether a tag is the start tag of a slot button: `<button class="timeslot-btn" ...>`. -/
def isSlotButton (tag : Tag) : Bool :=
  !tag.closing && tag.name == "button".data && tag.attr "class" == some "timeslot-btn".data

/-- Whether a character can stand unescaped in a single-quoted string literal without
ending it or starting an escape: no apostrophe, backslash or line terminator. -/
def isLiteralChar (c : Char) : Bool :=
  !(c.toNat = 39 || c.toNat = 92 || isLineTerminator c)

/-- Evaluation of an inline handler of the form `chatUI.handleTimeslotSelection('L')`
with `L` free of apostrophes, backslashes and line terminators: the argument `L`. On any
other handler text (a syntax error, a literal with escapes, another script) the result is
`none`: this embedding does not evaluate it. -/
def slotCallArgument (handler : List Char) : Option (List Char) :=
  if "chatUI.handleTimeslotSelection('".data.isPrefixOf handler then
    let body := handler.drop "chatUI.handleTimeslotSelection('".data.length
    if body.drop (body.length - 2) = "')".data
        && (body.take (body.length - 2)).all isLiteralChar then
      some (body.take (body.length - 2))
    else none
  else none

/-- The call a slot button makes when clicked: its `onclick` attribute, character
references decoded, evaluated. -/
def slotCall (tag : Tag) : Option String :=
  match tag.attr "onclick" with
  | some raw => (slotCallArgument (decodeEntities raw)).map String.mk
  | none => none

/-- The calls of the slot buttons found in tags, in order. -/
def slotCalls (tags : List Tag) : List (Option String) :=
  (tags.filter isSlotButton).map slotCall

/-- The tokenizer, started in state `st` on the text `a`, ends in state `st'`, and the
slot buttons among the tags it emits make the calls `calls`. -/
def Scans (a : List Char) (st st' : TokState) (calls : List (Option String)) : Prop :=
  (tokRun a st).1 = st' ∧ slotCalls (tokRun a st).2 = calls

namespace ChatUI

/-- The slot buttons of a transcript entry, in document order, each given by the argument
its click passes to `handleTimeslotSelection` (`none` when its handler is not a plain
call). -/
def renderedSlotCalls (e : Entry) : List (Option String) :=
  slotCalls (tokenize e.innerHTML)

/-- A click on the `i`-th slot button of a transcript entry, up to the `await` of the send
it starts: the inline handler looks up `chatUI` on `window` (a ReferenceError, and no
effect, when it is not installed) and calls `handleTimeslotSelection`. `none` when the
entry has no such button or its handler is not a plain call. -/
def clickRenderedSlot (p : Page) (e : Entry) (i : Nat) : Option Page :=
  match (renderedSlotCalls e).get? i with
  | some (some slotDisplay) =>
    if p.windowChatUI then some (handleTimeslotSelectionBegin p slotDisplay) else some p
  | _ => none

end ChatUI

/-- A character that neither the markup nor the inline handler treats specially: no
control character, quote, apostrophe, `*`, backslash, backtick or line separator. -/
def isPlainChar (c : Char) : Bool :=
  0x20 ≤ c.toNat && !(c.toNat = 34 || c.toNat = 39 || c.toNat = 42 || c.toNat = 92
    || c.toNat = 96 || c.toNat = 0x2028 || c.toNat = 0x2029)

/-- A display label made of plain characters (it may contain `&`, `<` and `>`). -/
def isPlainLabel (s : String) : Bool := s.data.all isPlainChar

/-- A text made of plain characters other than `<`. -/
def isPlainText (s : String) : Bool := s.data.all (fun c => isPlainChar c && !(c.toNat = 60))

/-- A message text without `<`, `*` and backtick (it may contain line breaks). -/
def isPlainMessage (s : String) : Bool :=
  s.data.all (fun c => !(c.toNat = 60 || c.toNat = 42 || c.toNat = 96))

/-! ## Vocabulary of the statements -/

/-- The `session_id` a request carries. -/
def Request.sessionId (r : Request) : String :=
  match r.payload with
  | .chatMessage _ session_id _ _ => session_id
  | .bookingConfirm session_id _ => session_id

/-- Whether a request is a chat message (`POST /chat/message`). -/
def Request.isChatMessage (r : Request) : Bool :=
  match r.payload with
  | .chatMessage _ _ _ _ => true
  | .bookingConfirm _ _ => false

/-- The `conversation_state` a chat message request carries. -/
def Request.conversationState (r : Request) : Option String :=
  match r.payload with
  | .chatMessage _ _ conversation_state _ => conversation_state
  | .bookingConfirm _ _ => none

/-- The `content` a chat message request carries. -/
def Request.content (r : Request) : Option String :=
  match r.payload with
  | .chatMessage content _ _ _ => some content
  | .bookingConfirm _ _ => none

/-- What no method assigns after page load: the two `window` slots and the two
gateways. `p.Keeps q` says `q` has them as `p` does. -/
def Page.Keeps (p q : Page) : Prop :=
  q.windowChatUI = p.windowChatUI ∧ q.windowBookingFlow = p.windowBookingFlow ∧
  q.chatUI.apiClient = p.chatUI.apiClient ∧ q.bookingFlow.apiClient = p.bookingFlow.apiClient

/-- A page state the page can be in: the state after page load and some sequence of
events. -/
def Reachable (p : Page) : Prop :=
  ∃ (confirmLabel : String) (clock : Clock) (chatNow : Nat) (chatSuffix : String)
    (bookingNow : Nat) (bookingSuffix : String) (events : List Event),
    p = run (pageLoad confirmLabel clock chatNow chatSuffix bookingNow bookingSuffix) events

/-- Whether the text starts with one of the character references of `escapeHtml`. -/
def beginsEntity (s : List Char) : Bool :=
  "&amp;".data.isPrefixOf s || "&lt;".data.isPrefixOf s || "&gt;".data.isPrefixOf s
  || "&nbsp;".data.isPrefixOf s

/-- Whether every `&` of the text begins one of the character references. -/
def ampersandsBeginEntities : List Char → Bool
  | [] => true
  | c :: rest => (c != '&' || beginsEntity (c :: rest)) && ampersandsBeginEntities rest

/-- The conversation state label the specification prescribes after one more event,
`label` being the one before it: a successful server response sets its own label, a
reset (the new-booking button) sets the starting label, nothing else changes it. -/
def specLabelStep (label : String) : Event → String
  | .chatSettled (.ok response) => response.conversation_state
  | .clickNewBooking => "collecting_contact"
  | _ => label

/-- The conversation state label the specification prescribes after a sequence of events
since page load: the label of the most recent successful server response since page
load or the last reset, and the starting label when there has been none. -/
def specLabel (events : List Event) : String :=
  events.foldl specLabelStep "collecting_contact"

/-- Example clock reading. -/
def exampleClock : Clock :=
  { timeString := "10:15 AM", isoString := "2024-01-15T10:15:00.000Z" }

/-- Example page: just loaded, the two gateways having drawn different random suffixes. -/
def exampleLoaded : Page :=
  pageLoad "Confirm Booking" exampleClock 1705313700000 "k3j2h1g9x" 1705313700000 "p0o9i8u7y"

/-- Example page: the user has typed a name into the input. -/
def examplePage : Page := ChatUI.onInput exampleLoaded "John Smith"

/-- Example response of the server to a name. -/
def exampleResponse : Response :=
  { message := "Great! What service do you need?",
    message_type := "text",
    conversation_state := "collecting_service",
    booking_data := .undefined,
    available_slots := none,
    suggested_actions := some ["Photography", "Videography"] }

/-- Example booking data. -/
def exampleBooking : JsVal :=
  .obj [("job_type", .str "Photography"), ("date", .str "2024-02-01"),
        ("contact_name", .str "John Smith")]

/-- Example terminal response. -/
def exampleCompleted : Response :=
  { message := "All set! Please review your booking.",
    message_type := "confirmation",
    conversation_state := "completed",
    booking_data := exampleBooking,
    available_slots := none,
    suggested_actions := none }

/-- Example confirmation result. -/
def exampleConfirmation : Confirmation :=
  { status := "CONFIRMED", confirmation_message := "Your booking is confirmed.",
    job_dossier := none }

/-- Example slot whose display label has a space-padded hour. -/
def exampleSlot : Slot :=
  { display := " 9:00 AM", start_time := "09:00", end_time := "10:00" }

/-- Example response offering time slots. -/
def exampleSlotResponse : Response :=
  { message := "Please pick a time:",
    message_type := "timeslot_selection",
    conversation_state := "selecting_timeslot",
    booking_data := .undefined,
    available_slots := some [exampleSlot, { display := "10:30 AM", start_time := "10:30",
                                            end_time := "11:30" }],
    suggested_actions := none }

/-- Example page: the slot response has been displayed. -/
def exampleSlotPage : Page := ChatUI.sendMessage examplePage (.ok exampleSlotResponse)

/-- Example page: the user has typed only spaces into the input. -/
def exampleBlankPage : Page := ChatUI.onInput exampleLoaded "   "

/-- Example page: the terminal response has been received, the summary overlay is open. -/
def exampleSummaryPage : Page := ChatUI.sendMessage examplePage (.ok exampleCompleted)

/-- Example page: the booking of `exampleSummaryPage` has been confirmed by the server. -/
def exampleConfirmedPage : Page :=
  BookingFlow.confirmBooking exampleSummaryPage (.ok exampleConfirmation)

/-- Example page: after the confirmed booking the user has started a new booking and the
chat has reached the terminal state a second time. -/
def exampleSecondSummaryPage : Page :=
  ChatUI.sendMessage (ChatUI.onInput (step exampleConfirmedPage .clickNewBooking) "Jane Doe")
    (.ok exampleCompleted)

/-- Whether building the success message of `handleBookingCompletion()` throws on this
booking data: `calendar_event` is read, and when it is truthy `job_type.toLowerCase()`
is called, which only a string supports. -/
def ChatUI.completionMessageThrows (bookingData : JsVal) : Bool :=
  match getProp bookingData "calendar_event" with
  | .error _ => true
  | .ok calendarEvent =>
    calendarEvent.truthy &&
      match getProp bookingData "job_type" with
      | .error _ => true
      | .ok jobType =>
        match toLowerCase jobType with
        | .error _ => true
        | .ok _ => false

/-- Example booking data with a calendar event but no `job_type`. -/
def exampleCalendarBooking : JsVal :=
  .obj [("date", .str "2024-02-01"), ("contact_name", .str "John Smith"),
        ("calendar_event", .obj [("id", .str "evt_1")])]

/-- Example terminal response carrying `exampleCalendarBooking`. -/
def exampleCalendarCompleted : Response :=
  { message := "Your session is booked.",
    message_type := "confirmation",
    conversation_state := "completed",
    booking_data := exampleCalendarBooking,
    available_slots := none,
    suggested_actions := none }

/-- Whether an event is an input event (the user edits the text of the input). -/
def Event.isInput : Event → Bool
  | .input _ => true
  | _ => false

/-- The property names `formatBookingSummary` reads: the eight summary fields and
`details`. -/
def BookingFlow.summaryKeys : List String :=
  "details" :: BookingFlow.fields.map (fun f => f.key)

/-- Every value the summary reads from the booking data can be converted to text
(ToString does not throw on it). -/
def BookingFlow.Printable (bookingData : JsVal) : Prop :=
  ∀ key ∈ BookingFlow.summaryKeys, ∀ x, getProp bookingData key = .ok x → ∃ s, x.toStr = .ok s

/-- Whether `handleBookingCompletion()` throws on this booking data: in the summary, when
the booking controller is installed, or else while building the success message. -/
def ChatUI.completionThrows (windowBookingFlow : Bool) (bookingData : JsVal) : Bool :=
  (windowBookingFlow && !(BookingFlow.formatBookingSummary bookingData).toBool)
  || ChatUI.completionMessageThrows bookingData

/-- Example booking data whose `job_type` is an object with its own `toString` and
`valueOf` properties. -/
def exampleUnprintableBooking : JsVal :=
  .obj [("job_type", .obj [("toString", .num "1"), ("valueOf", .num "1")]),
        ("date", .str "2024-02-01")]

/-- Example terminal response carrying `exampleUnprintableBooking`. -/
def exampleUnprintableCompleted : Response :=
  { message := "All set! Please review your booking.",
    message_type := "confirmation",
    conversation_state := "completed",
    booking_data := exampleUnprintableBooking,
    available_slots := none,
    suggested_actions := none }

/-- The block of one summary field whose value is `Not specified`, written out. -/
def notSpecifiedMarkup (icon label : String) : String :=
  "\n                <div class=\"booking-field\">\n"
  ++ "                    <div class=\"field-icon\">" ++ icon ++ "</div>\n"
  ++ "                    <div class=\"field-content\">\n"
  ++ "                        <div class=\"field-label\">" ++ label ++ "</div>\n"
  ++ "                        <div class=\"field-value\">" ++ "Not specified" ++ "</div>\n"
  ++ "                    </div>\n"
  ++ "                </div>\n"
  ++ "            "

/-- The markup of the summary of the empty mapping, written out: every field, in the
order of the table, shows `Not specified`. -/
def emptySummaryMarkup : String :=
  "<div class=\"booking-summary-content\">"
  ++ notSpecifiedMarkup "🎯" "Job Type"
  ++ notSpecifiedMarkup "📅" "Date"
  ++ notSpecifiedMarkup "⏱️" "Duration"
  ++ notSpecifiedMarkup "📍" "Location"
  ++ notSpecifiedMarkup "💰" "Budget"
  ++ notSpecifiedMarkup "👤" "Contact Name"
  ++ notSpecifiedMarkup "📞" "Phone"
  ++ notSpecifiedMarkup "📧" "Email"
  ++ "</div>"

/-! ## Theorems -/

/-! ### What `handleBookingCompletion` changes -/

theorem getProp_ok_of_truthy (v : JsVal) (key : String) (h : v.truthy = true) :
    ∃ x, getProp v key = .ok x := by
  cases v <;> simp [getProp, JsVal.truthy] at h ⊢

theorem escapeHtml_ok_of_toStr (x : JsVal) (h : ∃ s, x.toStr = .ok s) :
    ∃ t, BookingFlow.escapeHtml x = .ok t := by
  obtain ⟨s, hs⟩ := h
  cases x <;> simp [BookingFlow.escapeHtml, JsVal.textContentOf, hs]

theorem escapeHtml_orNotSpecified_ok (x : JsVal) (h : ∃ s, x.toStr = .ok s) :
    ∃ t, BookingFlow.escapeHtml (BookingFlow.orNotSpecified x) = .ok t := by
  unfold BookingFlow.orNotSpecified
  split_ifs
  · exact escapeHtml_ok_of_toStr x h
  · exact ⟨_, rfl⟩

theorem foldl_appendField_ok (v : JsVal) (h : v.truthy = true) (fs : List BookingFlow.Field)
    (hconv : ∀ f ∈ fs, ∀ x, getProp v f.key = .ok x → ∃ s, x.toStr = .ok s) (acc : String) :
    ∃ s, fs.foldl (BookingFlow.appendField v) (.ok acc) = .ok (acc ++ s) := by
  induction fs generalizing acc with
  | nil => exact ⟨"", by simp⟩
  | cons f rest ih =>
    obtain ⟨x, hx⟩ := getProp_ok_of_truthy v f.key h
    obtain ⟨value, hvalue⟩ := escapeHtml_orNotSpecified_ok x
      (hconv f (List.mem_cons_self _ _) x hx)
    obtain ⟨s, hs⟩ := ih (fun g hg => hconv g (List.mem_cons_of_mem _ hg))
      (acc ++ BookingFlow.fieldBlock f.icon f.label value)
    refine ⟨BookingFlow.fieldBlock f.icon f.label value ++ s, ?_⟩
    simp only [List.foldl_cons, BookingFlow.appendField, hx, hvalue, hs, String.append_assoc]

theorem printable_fields {v : JsVal} (hp : BookingFlow.Printable v) :
    ∀ f ∈ BookingFlow.fields, ∀ x, getProp v f.key = .ok x → ∃ s, x.toStr = .ok s :=
  fun f hf x hx => hp f.key (List.mem_cons_of_mem _ (List.mem_map_of_mem _ hf)) x hx

/-- The summary of truthy booking data whose values convert to text is built without an
exception. -/
theorem formatBookingSummary_ok (v : JsVal) (h : v.truthy = true)
    (hp : BookingFlow.Printable v) :
    ∃ html, BookingFlow.formatBookingSummary v = .ok html := by
  obtain ⟨s, hs⟩ := foldl_appendField_ok v h BookingFlow.fields (printable_fields hp)
    "<div class=\"booking-summary-content\">"
  obtain ⟨d, hd⟩ := getProp_ok_of_truthy v "details" h
  obtain ⟨value, hvalue⟩ := escapeHtml_ok_of_toStr d (hp "details" (List.mem_cons_self _ _) d hd)
  unfold BookingFlow.formatBookingSummary
  rw [hs, hd]
  dsimp only
  split_ifs
  · rw [hvalue]
    exact ⟨_, rfl⟩
  · exact ⟨_, rfl⟩

theorem scheduleCompletionMessage_state (p : Page) :
    ∃ timers, (ChatUI.scheduleCompletionMessage p).state = { p with timers := timers } := by
  unfold ChatUI.scheduleCompletionMessage
  cases getProp p.chatUI.bookingData "calendar_event" with
  | error e => exact ⟨p.timers, rfl⟩
  | ok ce =>
    dsimp only
    split_ifs
    · cases getProp p.chatUI.bookingData "job_type" with
      | error e => exact ⟨p.timers, rfl⟩
      | ok jt =>
        dsimp only
        cases toLowerCase jt with
        | error e => exact ⟨p.timers, rfl⟩
        | ok lower => exact ⟨_, rfl⟩
    · exact ⟨p.timers, rfl⟩

theorem bookingDataOrEmpty_truthy (r : Response) : r.bookingDataOrEmpty.truthy = true := by
  unfold Response.bookingDataOrEmpty
  split_ifs with h
  · exact h
  · rfl

theorem handleBookingCompletion_shown (p : Page) (hw : p.windowBookingFlow = true)
    (html : String) (hhtml : BookingFlow.formatBookingSummary p.chatUI.bookingData = .ok html) :
    ∃ timers,
      (ChatUI.handleBookingCompletion p).state =
        { p with
          bookingFlow := { p.bookingFlow with
            currentBookingData := p.chatUI.bookingData, bookingSummary := html,
            bookingModalDisplay := "flex" },
          shownSummaries := p.shownSummaries ++ [p.chatUI.bookingData],
          timers := timers } := by
  obtain ⟨timers, ht2⟩ := scheduleCompletionMessage_state
    { p with
      bookingFlow := { p.bookingFlow with
        currentBookingData := p.chatUI.bookingData, bookingSummary := html,
        bookingModalDisplay := "flex" },
      shownSummaries := p.shownSummaries ++ [p.chatUI.bookingData] }
  refine ⟨timers, ?_⟩
  unfold ChatUI.handleBookingCompletion
  rw [if_pos hw]
  simp only [BookingFlow.showBookingSummary, hhtml]
  exact ht2

theorem handleBookingCompletion_hidden (p : Page) (hw : p.windowBookingFlow = false) :
    ∃ timers, (ChatUI.handleBookingCompletion p).state = { p with timers := timers } := by
  unfold ChatUI.handleBookingCompletion
  rw [if_neg (by simp [hw])]
  exact scheduleCompletionMessage_state p

theorem sendMessageSettle_ok (p : Page) (r : Response) :
    (r.conversation_state ≠ "completed" →
      ChatUI.sendMessageSettle p (.ok r) = ChatUI.sendMessageReceive p r) ∧
    (r.conversation_state = "completed" →
      ChatUI.sendMessageSettle p (.ok r) =
          (ChatUI.handleBookingCompletion (ChatUI.sendMessageReceive p r)).state
      ∨ ChatUI.sendMessageSettle p (.ok r) =
          ChatUI.sendMessageCatch
            (ChatUI.handleBookingCompletion (ChatUI.sendMessageReceive p r)).state) := by
  constructor
  · intro h
    simp [ChatUI.sendMessageSettle, h]
  · intro h
    simp only [ChatUI.sendMessageSettle, h, if_true]
    cases hc : ChatUI.handleBookingCompletion _ with
    | normal q => left; rfl
    | thrown q e => right; rfl

theorem sendMessageReceive_keeps (p : Page) (r : Response) :
    p.Keeps (ChatUI.sendMessageReceive p r) := ⟨rfl, rfl, rfl, rfl⟩

theorem keeps_of_eq {p q : Page} (h1 : q.windowChatUI = p.windowChatUI)
    (h2 : q.windowBookingFlow = p.windowBookingFlow)
    (h3 : q.chatUI.apiClient = p.chatUI.apiClient)
    (h4 : q.bookingFlow.apiClient = p.bookingFlow.apiClient) : p.Keeps q := ⟨h1, h2, h3, h4⟩

theorem Keeps.trans {p q r : Page} (h1 : p.Keeps q) (h2 : q.Keeps r) : p.Keeps r :=
  ⟨h2.1.trans h1.1, h2.2.1.trans h1.2.1, h2.2.2.1.trans h1.2.2.1, h2.2.2.2.trans h1.2.2.2⟩

theorem sendMessageBegin_keeps (p : Page) : p.Keeps (ChatUI.sendMessageBegin p) := by
  unfold ChatUI.sendMessageBegin
  dsimp only
  split_ifs <;> exact ⟨rfl, rfl, rfl, rfl⟩

theorem sendMessageCatch_keeps (p : Page) : p.Keeps (ChatUI.sendMessageCatch p) :=
  ⟨rfl, rfl, rfl, rfl⟩

theorem handleBookingCompletion_keeps (p : Page) :
    p.Keeps (ChatUI.handleBookingCompletion p).state := by
  unfold ChatUI.handleBookingCompletion
  split_ifs
  · unfold BookingFlow.showBookingSummary
    cases BookingFlow.formatBookingSummary p.chatUI.bookingData with
    | error e => exact ⟨rfl, rfl, rfl, rfl⟩
    | ok html =>
      dsimp only
      obtain ⟨t, ht⟩ := scheduleCompletionMessage_state
        { p with
          bookingFlow := { p.bookingFlow with
            currentBookingData := p.chatUI.bookingData, bookingSummary := html,
            bookingModalDisplay := "flex" },
          shownSummaries := p.shownSummaries ++ [p.chatUI.bookingData] }
      rw [ht]
      exact ⟨rfl, rfl, rfl, rfl⟩
  · obtain ⟨t, ht⟩ := scheduleCompletionMessage_state p
    rw [ht]
    exact ⟨rfl, rfl, rfl, rfl⟩

theorem sendMessageSettle_keeps (p : Page) (result : CallResult Response) :
    p.Keeps (ChatUI.sendMessageSettle p result) := by
  cases result with
  | failed e => exact ⟨rfl, rfl, rfl, rfl⟩
  | ok r =>
    by_cases h : r.conversation_state = "completed"
    · rcases (sendMessageSettle_ok p r).2 h with h2 | h2
      · rw [h2]
        exact Keeps.trans (sendMessageReceive_keeps p r) (handleBookingCompletion_keeps _)
      · rw [h2]
        exact Keeps.trans
          (Keeps.trans (sendMessageReceive_keeps p r) (handleBookingCompletion_keeps _))
          (sendMessageCatch_keeps _)
    · rw [(sendMessageSettle_ok p r).1 h]
      exact sendMessageReceive_keeps p r

theorem confirmBookingBegin_keeps (p : Page) : p.Keeps (BookingFlow.confirmBookingBegin p) := by
  unfold BookingFlow.confirmBookingBegin
  split_ifs <;> exact ⟨rfl, rfl, rfl, rfl⟩

theorem confirmBookingSettle_keeps (t : String) (p : Page) (result : CallResult Confirmation) :
    p.Keeps (BookingFlow.confirmBookingSettle t p result) := by
  cases result with
  | ok r => exact ⟨rfl, rfl, rfl, rfl⟩
  | failed e =>
    simp only [BookingFlow.confirmBookingSettle, BookingFlow.showErrorMessage]
    split_ifs <;> exact ⟨rfl, rfl, rfl, rfl⟩

theorem editBooking_keeps (p : Page) : p.Keeps (BookingFlow.editBooking p) := by
  unfold BookingFlow.editBooking
  dsimp only
  split_ifs
  · exact Keeps.trans ⟨rfl, rfl, rfl, rfl⟩ (sendMessageBegin_keeps _)
  · exact ⟨rfl, rfl, rfl, rfl⟩

theorem startNewBooking_keeps (p : Page) : p.Keeps (BookingFlow.startNewBooking p) := by
  unfold BookingFlow.startNewBooking
  dsimp only
  split_ifs <;> exact ⟨rfl, rfl, rfl, rfl⟩

theorem step_keeps (p : Page) (e : Event) : p.Keeps (step p e) := by
  cases e with
  | tick c => exact ⟨rfl, rfl, rfl, rfl⟩
  | input t => exact ⟨rfl, rfl, rfl, rfl⟩
  | clickSend =>
    simp only [step]
    split_ifs
    · exact ⟨rfl, rfl, rfl, rfl⟩
    · exact sendMessageBegin_keeps p
  | pressEnter => exact sendMessageBegin_keeps p
  | clickSlot s => exact Keeps.trans ⟨rfl, rfl, rfl, rfl⟩ (sendMessageBegin_keeps _)
  | clickAction s => exact Keeps.trans ⟨rfl, rfl, rfl, rfl⟩ (sendMessageBegin_keeps _)
  | chatSettled r => exact sendMessageSettle_keeps p r
  | timerFired =>
    simp only [step]
    split <;> exact ⟨rfl, rfl, rfl, rfl⟩
  | clickConfirm =>
    simp only [step]
    split_ifs
    · exact ⟨rfl, rfl, rfl, rfl⟩
    · exact ⟨rfl, rfl, rfl, rfl⟩
    · exact Keeps.trans (confirmBookingBegin_keeps p) ⟨rfl, rfl, rfl, rfl⟩
  | confirmSettled r =>
    simp only [step]
    split
    · exact ⟨rfl, rfl, rfl, rfl⟩
    · exact Keeps.trans ⟨rfl, rfl, rfl, rfl⟩ (confirmBookingSettle_keeps _ _ r)
  | clickEdit => exact editBooking_keeps p
  | clickNewBooking => exact startNewBooking_keeps p
  | closeModals => exact ⟨rfl, rfl, rfl, rfl⟩

theorem run_keeps (p : Page) (events : List Event) : p.Keeps (run p events) := by
  induction events generalizing p with
  | nil => exact ⟨rfl, rfl, rfl, rfl⟩
  | cons e rest ih => exact Keeps.trans (step_keeps p e) (ih (step p e))

theorem reachable_windowBookingFlow {p : Page} (h : Reachable p) : p.windowBookingFlow = true := by
  obtain ⟨l, c, n1, s1, n2, s2, events, rfl⟩ := h
  exact (run_keeps _ events).2.1

theorem reachable_windowChatUI {p : Page} (h : Reachable p) : p.windowChatUI = true := by
  obtain ⟨l, c, n1, s1, n2, s2, events, rfl⟩ := h
  exact (run_keeps _ events).1

theorem sendMessage_nonblank (p : Page) (result : CallResult Response)
    (h : trim p.chatUI.messageInputValue ≠ "") :
    ChatUI.sendMessage p result =
      ChatUI.sendMessageSettle (ChatUI.sendMessageIssue p (trim p.chatUI.messageInputValue))
        result := by
  simp [ChatUI.sendMessage, ChatUI.sendMessageBegin, h]

theorem sendMessageBegin_nonblank (p : Page) (h : trim p.chatUI.messageInputValue ≠ "") :
    ChatUI.sendMessageBegin p = ChatUI.sendMessageIssue p (trim p.chatUI.messageInputValue) := by
  simp [ChatUI.sendMessageBegin, h]

/-- Summary overlay after a successful call, on a page where the booking controller is
installed. -/
theorem sendMessageSettle_overlay (p : Page) (r : Response) (hw : p.windowBookingFlow = true) :
    (r.conversation_state = "completed" →
      ∀ html, BookingFlow.formatBookingSummary r.bookingDataOrEmpty = .ok html →
        (ChatUI.sendMessageSettle p (.ok r)).shownSummaries
          = p.shownSummaries ++ [r.bookingDataOrEmpty]
        ∧ (ChatUI.sendMessageSettle p (.ok r)).bookingFlow.bookingModalDisplay = "flex"
        ∧ (ChatUI.sendMessageSettle p (.ok r)).bookingFlow.bookingSummary = html
        ∧ (ChatUI.sendMessageSettle p (.ok r)).bookingFlow.currentBookingData
          = r.bookingDataOrEmpty) ∧
    (r.conversation_state ≠ "completed" →
      (ChatUI.sendMessageSettle p (.ok r)).shownSummaries = p.shownSummaries
      ∧ (ChatUI.sendMessageSettle p (.ok r)).bookingFlow = p.bookingFlow) := by
  constructor
  · intro hc html hhtml
    obtain ⟨timers, hstate⟩ := handleBookingCompletion_shown
      (ChatUI.sendMessageReceive p r) hw html hhtml
    rcases (sendMessageSettle_ok p r).2 hc with h2 | h2
    · rw [h2, hstate]
      exact ⟨rfl, rfl, rfl, rfl⟩
    · rw [h2, hstate]
      exact ⟨rfl, rfl, rfl, rfl⟩
  · intro hc
    rw [(sendMessageSettle_ok p r).1 hc]
    exact ⟨rfl, rfl⟩

theorem handleBookingCompletion_frame (p : Page) :
    (ChatUI.handleBookingCompletion p).state.chatUI = p.chatUI ∧
    (ChatUI.handleBookingCompletion p).state.requests = p.requests ∧
    (ChatUI.handleBookingCompletion p).state.confirmButton = p.confirmButton := by
  unfold ChatUI.handleBookingCompletion
  split_ifs
  · unfold BookingFlow.showBookingSummary
    cases BookingFlow.formatBookingSummary p.chatUI.bookingData with
    | error e => exact ⟨rfl, rfl, rfl⟩
    | ok html =>
      dsimp only
      obtain ⟨t, ht⟩ := scheduleCompletionMessage_state
        { p with
          bookingFlow := { p.bookingFlow with
            currentBookingData := p.chatUI.bookingData, bookingSummary := html,
            bookingModalDisplay := "flex" },
          shownSummaries := p.shownSummaries ++ [p.chatUI.bookingData] }
      rw [ht]
      exact ⟨rfl, rfl, rfl⟩
  · obtain ⟨t, ht⟩ := scheduleCompletionMessage_state p
    rw [ht]
    exact ⟨rfl, rfl, rfl⟩

/-- The continuation of `sendMessage` assigns neither the input nor the send button, and
issues no request. -/
theorem sendMessageSettle_frame (p : Page) (result : CallResult Response) :
    (ChatUI.sendMessageSettle p result).chatUI.sendButtonDisabled = p.chatUI.sendButtonDisabled ∧
    (ChatUI.sendMessageSettle p result).chatUI.messageInputValue = p.chatUI.messageInputValue ∧
    (ChatUI.sendMessageSettle p result).requests = p.requests ∧
    (ChatUI.sendMessageSettle p result).confirmButton = p.confirmButton := by
  cases result with
  | failed e => exact ⟨rfl, rfl, rfl, rfl⟩
  | ok r =>
    by_cases h : r.conversation_state = "completed"
    · obtain ⟨h1, h2, h3⟩ := handleBookingCompletion_frame (ChatUI.sendMessageReceive p r)
      rcases (sendMessageSettle_ok p r).2 h with h4 | h4
      · rw [h4, h1, h2, h3]
        exact ⟨rfl, rfl, rfl, rfl⟩
      · rw [h4]
        simp only [ChatUI.sendMessageCatch, ChatUI.displayErrorMessage, ChatUI.appendEntry,
          ChatUI.hideTypingIndicator, h1, h2, h3]
        exact ⟨rfl, rfl, rfl, rfl⟩
    · rw [(sendMessageSettle_ok p r).1 h]
      exact ⟨rfl, rfl, rfl, rfl⟩

/-- C1. For every non-blank input and every prior page state, when the outbound chat
call fails, `ChatUI.sendMessage` appends to the transcript exactly two entries, the user
entry followed by one error entry (so no bot entry), and the conversation state label
after the call is the one before it. -/
theorem sendMessage_failed_appends_one_error_entry (p : Page) (err : String)
    (h : trim p.chatUI.messageInputValue ≠ "") :
    (ChatUI.sendMessage p (.failed err)).chatUI.chatMessages
      = p.chatUI.chatMessages ++
          [ChatUI.userEntry p.clock (trim p.chatUI.messageInputValue),
           ChatUI.errorEntry p.clock "Sorry, I encountered an error. Please try again."]
    ∧ (ChatUI.userEntry p.clock (trim p.chatUI.messageInputValue)).kind = .user
    ∧ (ChatUI.errorEntry p.clock "Sorry, I encountered an error. Please try again.").kind = .error
    ∧ (ChatUI.sendMessage p (.failed err)).chatUI.currentConversationState
        = p.chatUI.currentConversationState := by
  rw [sendMessage_nonblank p _ h]
  simp [ChatUI.sendMessageSettle, ChatUI.sendMessageCatch, ChatUI.sendMessageIssue,
    ChatUI.displayErrorMessage, ChatUI.hideTypingIndicator, ChatUI.showTypingIndicator,
    ChatUI.displayUserMessage, ChatUI.appendEntry, ChatUI.userEntry, ChatUI.errorEntry]

/-- Witness of C1: the example page, the call failing with an HTTP error. -/
theorem sendMessage_failed_appends_one_error_entry_witness :
    trim examplePage.chatUI.messageInputValue ≠ "" ∧
    (ChatUI.sendMessage examplePage (.failed "HTTP error! status: 500")).chatUI.chatMessages
      = examplePage.chatUI.chatMessages ++
          [ChatUI.userEntry examplePage.clock (trim examplePage.chatUI.messageInputValue),
           ChatUI.errorEntry examplePage.clock "Sorry, I encountered an error. Please try again."]
    ∧ (ChatUI.userEntry examplePage.clock (trim examplePage.chatUI.messageInputValue)).kind = .user
    ∧ (ChatUI.errorEntry examplePage.clock
        "Sorry, I encountered an error. Please try again.").kind = .error
    ∧ (ChatUI.sendMessage examplePage
        (.failed "HTTP error! status: 500")).chatUI.currentConversationState
        = examplePage.chatUI.currentConversationState :=
  ⟨by decide, sendMessage_failed_appends_one_error_entry examplePage "HTTP error! status: 500"
    (by decide)⟩

/-- C2 counterexample. On the example page, whose input is non-blank, the send button
is not enabled after `sendMessage` has settled, neither when the call succeeded nor
when it failed. -/
theorem sendMessage_reenables_send_button_counterexample :
    trim examplePage.chatUI.messageInputValue ≠ "" ∧
    (ChatUI.sendMessage examplePage (.ok exampleResponse)).chatUI.sendButtonDisabled ≠ false ∧
    (ChatUI.sendMessage examplePage
      (.failed "HTTP error! status: 500")).chatUI.sendButtonDisabled ≠ false := by
  decide

theorem sendMessageBegin_disabled (p : Page) (hd : p.chatUI.sendButtonDisabled = true) :
    (ChatUI.sendMessageBegin p).chatUI.sendButtonDisabled = true := by
  unfold ChatUI.sendMessageBegin
  dsimp only
  split_ifs
  · exact hd
  · rfl

/-- No event other than an input event enables a disabled send button. -/
theorem step_keeps_send_button_disabled (p : Page) (e : Event) (he : e.isInput = false)
    (hd : p.chatUI.sendButtonDisabled = true) :
    (step p e).chatUI.sendButtonDisabled = true := by
  cases e with
  | tick c => exact hd
  | input t => simp [Event.isInput] at he
  | clickSend =>
    simp only [step]
    split_ifs
    exact hd
  | pressEnter => exact sendMessageBegin_disabled p hd
  | clickSlot s => exact sendMessageBegin_disabled _ hd
  | clickAction s => exact sendMessageBegin_disabled _ hd
  | chatSettled r => exact (sendMessageSettle_frame p r).1.trans hd
  | timerFired =>
    simp only [step]
    split
    · exact hd
    · exact hd
  | clickConfirm =>
    simp only [step, BookingFlow.confirmBookingBegin]
    split_ifs <;> exact hd
  | confirmSettled r =>
    simp only [step]
    split
    · exact hd
    · cases r with
      | ok c => exact hd
      | failed err =>
        simp only [BookingFlow.confirmBookingSettle, BookingFlow.showErrorMessage]
        split_ifs <;> exact hd
  | clickEdit =>
    simp only [step, BookingFlow.editBooking]
    split_ifs
    · exact sendMessageBegin_disabled _ hd
    · exact hd
  | clickNewBooking =>
    simp only [step, BookingFlow.startNewBooking]
    split_ifs <;> exact hd
  | closeModals => exact hd

theorem run_snoc (p : Page) (events : List Event) (e : Event) :
    run p (events ++ [e]) = step (run p events) e := by
  simp [run, List.foldl_append]

theorem run_keeps_send_button_disabled (p : Page) (events : List Event)
    (he : ∀ e ∈ events, e.isInput = false) (hd : p.chatUI.sendButtonDisabled = true) :
    (run p events).chatUI.sendButtonDisabled = true := by
  induction events generalizing p with
  | nil => exact hd
  | cons e rest ih =>
    exact ih (step p e) (fun x hx => he x (List.mem_cons_of_mem _ hx))
      (step_keeps_send_button_disabled p e (he e (List.mem_cons_self _ _)) hd)

/-- C2 amended. For every non-blank input, `ChatUI.sendMessage` disables the send control
and empties the input when it issues the call; when the call settles, with success or
with failure, after any events in between, it assigns neither of them: the send control
and the input are then as those events left them. No event other than an input event
enables a disabled send control, so the control is still disabled after the settle when
no input event happened in between (in particular when the call settles at once), and
when the last event before the settle was an input event the control is disabled
exactly when the text then in the input is blank. -/
theorem sendMessage_leaves_send_button_to_input_listener (p : Page) (during : List Event)
    (result : CallResult Response) (h : trim p.chatUI.messageInputValue ≠ "") :
    (ChatUI.sendMessageBegin p).chatUI.sendButtonDisabled = true
    ∧ (ChatUI.sendMessageBegin p).chatUI.messageInputValue = ""
    ∧ (ChatUI.sendMessageSettle (run (ChatUI.sendMessageBegin p) during)
        result).chatUI.sendButtonDisabled
        = (run (ChatUI.sendMessageBegin p) during).chatUI.sendButtonDisabled
    ∧ (ChatUI.sendMessageSettle (run (ChatUI.sendMessageBegin p) during)
        result).chatUI.messageInputValue
        = (run (ChatUI.sendMessageBegin p) during).chatUI.messageInputValue
    ∧ (∀ (q : Page) (e : Event), e.isInput = false → q.chatUI.sendButtonDisabled = true →
        (step q e).chatUI.sendButtonDisabled = true)
    ∧ ((∀ e ∈ during, e.isInput = false) →
        (ChatUI.sendMessageSettle (run (ChatUI.sendMessageBegin p) during)
          result).chatUI.sendButtonDisabled = true)
    ∧ (∀ before text, during = before ++ [Event.input text] →
        (ChatUI.sendMessageSettle (run (ChatUI.sendMessageBegin p) during)
          result).chatUI.sendButtonDisabled = (trim text == "")
        ∧ (ChatUI.sendMessageSettle (run (ChatUI.sendMessageBegin p) during)
          result).chatUI.messageInputValue = text)
    ∧ (ChatUI.sendMessage p result).chatUI.sendButtonDisabled = true
    ∧ (ChatUI.sendMessage p result).chatUI.messageInputValue = "" := by
  have hb1 : (ChatUI.sendMessageBegin p).chatUI.sendButtonDisabled = true := by
    rw [sendMessageBegin_nonblank p h]; rfl
  have hb2 : (ChatUI.sendMessageBegin p).chatUI.messageInputValue = "" := by
    rw [sendMessageBegin_nonblank p h]; rfl
  obtain ⟨f1, f2, -, -⟩ := sendMessageSettle_frame (run (ChatUI.sendMessageBegin p) during) result
  refine ⟨hb1, hb2, f1, f2, step_keeps_send_button_disabled, ?_, ?_, ?_, ?_⟩
  · intro he
    rw [f1]
    exact run_keeps_send_button_disabled _ during he hb1
  · intro before text hd
    rw [f1, f2, hd, run_snoc]
    exact ⟨rfl, rfl⟩
  · have : ChatUI.sendMessage p result
        = ChatUI.sendMessageSettle (ChatUI.sendMessageBegin p) result := by
      simp [ChatUI.sendMessage, h]
    rw [this, (sendMessageSettle_frame _ result).1]
    exact hb1
  · have : ChatUI.sendMessage p result
        = ChatUI.sendMessageSettle (ChatUI.sendMessageBegin p) result := by
      simp [ChatUI.sendMessage, h]
    rw [this, (sendMessageSettle_frame _ result).2.1]
    exact hb2

/-- Witness of C2 amended: on the example page the user types `B` while the call is in
flight; when the call settles the send button is enabled and the input holds `B`. -/
theorem sendMessage_leaves_send_button_to_input_listener_witness :
    trim examplePage.chatUI.messageInputValue ≠ ""
    ∧ (ChatUI.sendMessageSettle (run (ChatUI.sendMessageBegin examplePage) [Event.input "B"])
        (.ok exampleResponse)).chatUI.sendButtonDisabled = false
    ∧ (ChatUI.sendMessageSettle (run (ChatUI.sendMessageBegin examplePage) [Event.input "B"])
        (.ok exampleResponse)).chatUI.messageInputValue = "B" :=
  ⟨by decide,
    ((sendMessage_leaves_send_button_to_input_listener examplePage [Event.input "B"]
      (.ok exampleResponse) (by decide)).2.2.2.2.2.2.1 [] "B" rfl).1.trans (by decide),
    ((sendMessage_leaves_send_button_to_input_listener examplePage [Event.input "B"]
      (.ok exampleResponse) (by decide)).2.2.2.2.2.2.1 [] "B" rfl).2⟩

/-- C7. For every input value that is empty or consists only of whitespace,
`ChatUI.sendMessage` changes nothing on the page: it issues no request, appends no
transcript entry, and leaves the conversation state label, the booking data and the
input value as they were. -/
theorem sendMessage_blank_input_does_nothing (p : Page) (result : CallResult Response)
    (h : trim p.chatUI.messageInputValue = "") :
    ChatUI.sendMessageBegin p = p ∧
    ChatUI.sendMessage p result = p ∧
    (ChatUI.sendMessage p result).requests = p.requests ∧
    (ChatUI.sendMessage p result).chatUI.chatMessages = p.chatUI.chatMessages ∧
    (ChatUI.sendMessage p result).chatUI.currentConversationState
      = p.chatUI.currentConversationState ∧
    (ChatUI.sendMessage p result).chatUI.bookingData = p.chatUI.bookingData ∧
    (ChatUI.sendMessage p result).chatUI.messageInputValue = p.chatUI.messageInputValue := by
  have h1 : ChatUI.sendMessage p result = p := by simp [ChatUI.sendMessage, h]
  have h2 : ChatUI.sendMessageBegin p = p := by simp [ChatUI.sendMessageBegin, h]
  rw [h1]
  exact ⟨h2, rfl, rfl, rfl, rfl, rfl, rfl⟩

/-- C3 counterexample. On the example page, reached from page load, the call succeeds
with a response whose `conversation_state` is `completed` and whose booking data has an
object with its own `toString` as `job_type`: `formatBookingSummary` throws, no summary
overlay is shown (nothing is added to the history of overlays, the modal is not
displayed), and the error entry is appended instead. -/
theorem sendMessage_shows_summary_when_completed_counterexample :
    Reachable examplePage
    ∧ trim examplePage.chatUI.messageInputValue ≠ ""
    ∧ exampleUnprintableCompleted.conversation_state = "completed"
    ∧ BookingFlow.formatBookingSummary exampleUnprintableBooking
        = .error "TypeError: Cannot convert object to primitive value"
    ∧ (ChatUI.sendMessage examplePage (.ok exampleUnprintableCompleted)).shownSummaries.length
        = 0
    ∧ (ChatUI.sendMessage examplePage
        (.ok exampleUnprintableCompleted)).bookingFlow.bookingModalDisplay ≠ "flex"
    ∧ ((ChatUI.sendMessage examplePage
        (.ok exampleUnprintableCompleted)).chatUI.chatMessages.map (fun e => e.kind)).getLast?
        = some EntryKind.error :=
  ⟨⟨"Confirm Booking", exampleClock, 1705313700000, "k3j2h1g9x", 1705313700000, "p0o9i8u7y",
      [Event.input "John Smith"], rfl⟩,
    by decide, rfl, rfl, by decide, by decide, by decide⟩

/-- C3 amended. For every successful server response received by `ChatUI.sendMessage` on
a page reached from page load: when the response's `conversation_state` is `completed`
and `formatBookingSummary` returns a summary for the response's booking data (the
`booking_data` of the response when it is truthy, the empty mapping otherwise), the
summary overlay is shown exactly once (one entry, that booking data, is added to the
history of overlays shown, and the modal is displayed) and it is populated from that
booking data alone (the summary markup is the one `formatBookingSummary` returned for
it, and the booking controller holds it); for any other label no overlay is shown
(history and booking controller are unchanged); and `formatBookingSummary` does return
a summary whenever every value it reads from the booking data converts to text. -/
theorem sendMessage_shows_summary_iff_completed (p : Page) (response : Response)
    (hr : Reachable p) (h : trim p.chatUI.messageInputValue ≠ "") :
    (response.conversation_state = "completed" →
      ∀ html, BookingFlow.formatBookingSummary
          (if response.booking_data.truthy then response.booking_data else .obj []) = .ok html →
        (ChatUI.sendMessage p (.ok response)).shownSummaries
          = p.shownSummaries
            ++ [if response.booking_data.truthy then response.booking_data else .obj []]
        ∧ (ChatUI.sendMessage p (.ok response)).bookingFlow.bookingModalDisplay = "flex"
        ∧ (ChatUI.sendMessage p (.ok response)).bookingFlow.bookingSummary = html
        ∧ (ChatUI.sendMessage p (.ok response)).bookingFlow.currentBookingData
          = (if response.booking_data.truthy then response.booking_data else .obj [])) ∧
    (response.conversation_state ≠ "completed" →
      (ChatUI.sendMessage p (.ok response)).shownSummaries = p.shownSummaries
      ∧ (ChatUI.sendMessage p (.ok response)).bookingFlow = p.bookingFlow) ∧
    (BookingFlow.Printable
        (if response.booking_data.truthy then response.booking_data else .obj []) →
      ∃ html, BookingFlow.formatBookingSummary
        (if response.booking_data.truthy then response.booking_data else .obj []) = .ok html) := by
  rw [sendMessage_nonblank p _ h]
  obtain ⟨h1, h2⟩ := sendMessageSettle_overlay
    (ChatUI.sendMessageIssue p (trim p.chatUI.messageInputValue))
    response (reachable_windowBookingFlow hr : p.windowBookingFlow = true)
  exact ⟨h1, h2, formatBookingSummary_ok _ (bookingDataOrEmpty_truthy response)⟩

/-! ### Escaping -/

theorem escapeChars_cons (c : Char) (rest : List Char) :
    escapeChars (c :: rest) = escapeChar c ++ escapeChars rest := by
  simp [escapeChars]

theorem decodeEntitiesAux_escapeChar_append (c : Char) (t : List Char) (fuel : Nat)
    (h : (escapeChar c ++ t).length ≤ fuel + 1) :
    ∃ fuel', t.length ≤ fuel' ∧
      decodeEntitiesAux (fuel + 1) (escapeChar c ++ t) = c :: decodeEntitiesAux fuel' t := by
  unfold escapeChar at h ⊢
  split_ifs at h ⊢ with h1 h2 h3 h4
  · subst h1
    refine ⟨fuel, by simp at h; omega, ?_⟩
    simp [decodeEntitiesAux]
  · subst h2
    refine ⟨fuel, by simp at h; omega, ?_⟩
    simp [decodeEntitiesAux]
  · subst h3
    refine ⟨fuel, by simp at h; omega, ?_⟩
    simp [decodeEntitiesAux]
  · have : c = Char.ofNat 0xA0 := by
      rw [← h4]; exact (Char.ofNat_toNat c).symm
    subst this
    refine ⟨fuel, by simp at h; omega, ?_⟩
    simp [decodeEntitiesAux]
  · refine ⟨fuel, by simp at h; omega, ?_⟩
    simp [decodeEntitiesAux, h1]

theorem decodeEntitiesAux_escapeChars (s : List Char) :
    ∀ fuel, (escapeChars s).length ≤ fuel → decodeEntitiesAux fuel (escapeChars s) = s := by
  induction s with
  | nil =>
    intro fuel _
    cases fuel <;> simp [escapeChars, decodeEntitiesAux]
  | cons c rest ih =>
    intro fuel h
    rw [escapeChars_cons] at h ⊢
    cases fuel with
    | zero =>
      exfalso
      have : 0 < (escapeChar c).length := by
        unfold escapeChar; split_ifs <;> simp
      rw [List.length_append] at h
      omega
    | succ f =>
      obtain ⟨f', hf', heq⟩ := decodeEntitiesAux_escapeChar_append c (escapeChars rest) f h
      rw [heq, ih f' hf']

theorem decodeEntities_escapeChars (s : List Char) : decodeEntities (escapeChars s) = s :=
  decodeEntitiesAux_escapeChars s _ (le_refl _)

theorem not_mem_escapeChar (c d : Char) (hd : d = '<' ∨ d = '>') : d ∉ escapeChar c := by
  unfold escapeChar
  split_ifs with h1 h2 h3 h4
  · rcases hd with rfl | rfl <;> decide
  · rcases hd with rfl | rfl <;> decide
  · rcases hd with rfl | rfl <;> decide
  · rcases hd with rfl | rfl <;> decide
  · rcases hd with rfl | rfl
    · simpa using fun h => h2 h.symm
    · simpa using fun h => h3 h.symm

theorem not_mem_escapeChars (s : List Char) (d : Char) (hd : d = '<' ∨ d = '>') :
    d ∉ escapeChars s := by
  unfold escapeChars
  rw [List.mem_flatMap]
  rintro ⟨c, -, hc⟩
  exact not_mem_escapeChar c d hd hc

theorem ampersandsBeginEntities_escapeChar_append (c : Char) (t : List Char) :
    ampersandsBeginEntities (escapeChar c ++ t) = ampersandsBeginEntities t := by
  unfold escapeChar
  split_ifs with h1 h2 h3 h4
  · simp [ampersandsBeginEntities, beginsEntity]
  · simp [ampersandsBeginEntities, beginsEntity]
  · simp [ampersandsBeginEntities, beginsEntity]
  · simp [ampersandsBeginEntities, beginsEntity]
  · simp [ampersandsBeginEntities, h1]

theorem ampersandsBeginEntities_escapeChars (s : List Char) :
    ampersandsBeginEntities (escapeChars s) = true := by
  induction s with
  | nil => rfl
  | cons c rest ih => rw [escapeChars_cons, ampersandsBeginEntities_escapeChar_append, ih]

theorem beginsEntity_of_ampersandsBeginEntities (l : List Char)
    (h : ampersandsBeginEntities l = true) (pre post : List Char)
    (hl : l = pre ++ '&' :: post) : beginsEntity ('&' :: post) = true := by
  induction pre generalizing l with
  | nil =>
    subst hl
    simp only [List.nil_append, ampersandsBeginEntities, Bool.and_eq_true, Bool.or_eq_true] at h
    rcases h.1 with h1 | h1
    · simp at h1
    · exact h1
  | cons c pre ih =>
    subst hl
    simp only [List.cons_append, ampersandsBeginEntities, Bool.and_eq_true] at h
    exact ih _ h.2 rfl

/-- C4. For every message text, `displayUserMessage` appends one user entry whose
content is `escapeHtml(message)`; that escaped text contains no `<` and no `>`, every
`&` in it begins one of the character references `&amp;`, `&lt;`, `&gt;`, `&nbsp;`, and
decoding the references gives back the message exactly. -/
theorem displayUserMessage_content_is_escaped (p : Page) (message : String) :
    (ChatUI.displayUserMessage p message).chatUI.chatMessages
      = p.chatUI.chatMessages ++ [ChatUI.userEntry p.clock message]
    ∧ (ChatUI.userEntry p.clock message).innerHTML
      = ChatUI.bubbleHtml (escapeHtml message) p.clock.timeString
    ∧ '<' ∉ (escapeHtml message).data
    ∧ '>' ∉ (escapeHtml message).data
    ∧ (∀ pre post, (escapeHtml message).data = pre ++ '&' :: post →
        beginsEntity ('&' :: post) = true)
    ∧ decodeEntities (escapeHtml message).data = message.data :=
  ⟨rfl, rfl, not_mem_escapeChars _ _ (Or.inl rfl), not_mem_escapeChars _ _ (Or.inr rfl),
    beginsEntity_of_ampersandsBeginEntities _ (ampersandsBeginEntities_escapeChars _),
    decodeEntities_escapeChars _⟩

/-! ### Booking summary -/

/-- The summary of truthy booking data whose values convert to text contains, for each
field of the table, the block of that field with the escaped value read for it. -/
theorem formatBookingSummary_block (v : JsVal) (h : v.truthy = true)
    (hp : BookingFlow.Printable v) (f : BookingFlow.Field)
    (hf : f ∈ BookingFlow.fields) (x : JsVal) (hx : getProp v f.key = .ok x) (value : String)
    (hvalue : BookingFlow.escapeHtml (BookingFlow.orNotSpecified x) = .ok value) :
    ∃ pre post, BookingFlow.formatBookingSummary v
      = .ok (pre ++ BookingFlow.fieldBlock f.icon f.label value ++ post) := by
  obtain ⟨l1, l2, hsplit⟩ := List.append_of_mem hf
  have hp1 : ∀ g ∈ l1, ∀ y, getProp v g.key = .ok y → ∃ s, y.toStr = .ok s :=
    fun g hg => printable_fields hp g (by rw [hsplit]; exact List.mem_append_left _ hg)
  have hp2 : ∀ g ∈ l2, ∀ y, getProp v g.key = .ok y → ∃ s, y.toStr = .ok s :=
    fun g hg => printable_fields hp g
      (by rw [hsplit]; exact List.mem_append_right _ (List.mem_cons_of_mem _ hg))
  obtain ⟨s1, hs1⟩ := foldl_appendField_ok v h l1 hp1 "<div class=\"booking-summary-content\">"
  obtain ⟨s2, hs2⟩ := foldl_appendField_ok v h l2 hp2
    ("<div class=\"booking-summary-content\">" ++ s1
      ++ BookingFlow.fieldBlock f.icon f.label value)
  obtain ⟨d, hd⟩ := getProp_ok_of_truthy v "details" h
  obtain ⟨dvalue, hdvalue⟩ := escapeHtml_ok_of_toStr d
    (hp "details" (List.mem_cons_self _ _) d hd)
  unfold BookingFlow.formatBookingSummary
  rw [hsplit, List.foldl_append, List.foldl_cons, hs1]
  simp only [BookingFlow.appendField, hx, hvalue, hs2, hd]
  split_ifs
  · rw [hdvalue]
    exact ⟨"<div class=\"booking-summary-content\">" ++ s1,
      s2 ++ BookingFlow.fieldBlock "📝" "Additional Notes" dvalue ++ "</div>",
      by simp only [String.append_assoc]⟩
  · exact ⟨"<div class=\"booking-summary-content\">" ++ s1, s2 ++ "</div>",
      by simp only [String.append_assoc]⟩

theorem printable_obj (props : List (String × JsVal))
    (hp : ∀ key ∈ BookingFlow.summaryKeys, ∀ value, props.lookup key = some value →
      ∃ s, value.toStr = .ok s) :
    BookingFlow.Printable (.obj props) := by
  intro key hkey x hx
  simp only [getProp, Except.ok.injEq] at hx
  subst hx
  cases hl : props.lookup key with
  | none => exact ⟨"undefined", rfl⟩
  | some value => exact hp key hkey value hl

theorem escapeHtml_not_specified : JobBot.escapeHtml "Not specified" = "Not specified" := by
  decide

theorem fieldBlock_not_specified (icon label : String) :
    BookingFlow.fieldBlock icon label "Not specified" = notSpecifiedMarkup icon label := rfl

theorem formatBookingSummary_empty :
    BookingFlow.formatBookingSummary (.obj []) = .ok emptySummaryMarkup := by
  simp only [BookingFlow.formatBookingSummary, BookingFlow.fields, List.foldl,
    BookingFlow.appendField, getProp, List.lookup, Option.getD, BookingFlow.orNotSpecified,
    JsVal.truthy, BookingFlow.escapeHtml, JsVal.textContentOf, JsVal.toStr,
    escapeHtml_not_specified, fieldBlock_not_specified]
  rfl

/-- C6 counterexample. On the mapping whose `job_type` is an object with its own
`toString` and `valueOf` properties, `formatBookingSummary` throws a TypeError. -/
theorem formatBookingSummary_never_throws_counterexample :
    BookingFlow.formatBookingSummary
        (.obj [("job_type", .obj [("toString", .num "1"), ("valueOf", .num "1")]),
               ("date", .str "2024-02-01")])
      = .error "TypeError: Cannot convert object to primitive value" := by
  rfl

/-- C6 amended. For every booking-data mapping in which every value present for one of
the eight summary fields (`job_type`, `date`, `duration`, `location`, `budget`,
`contact_name`, `phone`, `email`) or for `details` converts to text, as every string,
number, boolean and `null` does, `formatBookingSummary` returns a summary (it does not
throw), and for each of the eight fields that the mapping is missing the summary
contains that field's block, written out in the statement: its icon, its label and the
value `Not specified`; the summary of the empty mapping is the markup written out in
`emptySummaryMarkup`, the eight such blocks in the order of the table. -/
theorem formatBookingSummary_not_specified (props : List (String × JsVal))
    (hp : ∀ key ∈ ["details", "job_type", "date", "duration", "location", "budget",
        "contact_name", "phone", "email"],
      ∀ value, props.lookup key = some value → ∃ s, value.toStr = .ok s) :
    BookingFlow.fields.map (fun f => (f.key, f.label))
      = [("job_type", "Job Type"), ("date", "Date"), ("duration", "Duration"),
         ("location", "Location"), ("budget", "Budget"), ("contact_name", "Contact Name"),
         ("phone", "Phone"), ("email", "Email")]
    ∧ BookingFlow.formatBookingSummary (.obj []) = .ok emptySummaryMarkup
    ∧ (∀ b t s, (JsVal.bool b).toStr = .ok (if b then "true" else "false")
        ∧ (JsVal.num t).toStr = .ok t ∧ (JsVal.str s).toStr = .ok s
        ∧ JsVal.null.toStr = .ok "null")
    ∧ ∃ html, BookingFlow.formatBookingSummary (.obj props) = .ok html ∧
      ∀ f ∈ BookingFlow.fields, props.lookup f.key = none →
        ∃ pre post, html = pre ++
          ("\n                <div class=\"booking-field\">\n"
          ++ "                    <div class=\"field-icon\">" ++ f.icon ++ "</div>\n"
          ++ "                    <div class=\"field-content\">\n"
          ++ "                        <div class=\"field-label\">" ++ f.label ++ "</div>\n"
          ++ "                        <div class=\"field-value\">" ++ "Not specified" ++ "</div>\n"
          ++ "                    </div>\n"
          ++ "                </div>\n"
          ++ "            ") ++ post := by
  have hprint : BookingFlow.Printable (.obj props) := printable_obj props hp
  refine ⟨rfl, formatBookingSummary_empty, fun b t s => ⟨rfl, rfl, rfl, rfl⟩, ?_⟩
  obtain ⟨html, hhtml⟩ := formatBookingSummary_ok (.obj props) rfl hprint
  refine ⟨html, hhtml, ?_⟩
  intro f hf hnone
  have hx : getProp (.obj props) f.key = .ok .undefined := by
    simp [getProp, hnone]
  obtain ⟨pre, post, hblock⟩ := formatBookingSummary_block (.obj props) rfl hprint f hf
    .undefined hx "Not specified" rfl
  rw [hhtml, fieldBlock_not_specified] at hblock
  exact ⟨pre, post, Except.ok.inj hblock⟩

/-! ### Time slots -/

theorem tokRun_append (a b : List Char) (st : TokState) :
    tokRun (a ++ b) st
      = ((tokRun b (tokRun a st).1).1, (tokRun a st).2 ++ (tokRun b (tokRun a st).1).2) := by
  induction a generalizing st with
  | nil => simp [tokRun]
  | cons c cs ih => simp [tokRun, ih, List.append_assoc]

theorem slotCalls_append (x y : List Tag) : slotCalls (x ++ y) = slotCalls x ++ slotCalls y := by
  simp [slotCalls]

theorem Scans.append {a b : List Char} {st st' st'' : TokState} {c1 c2 : List (Option String)}
    (h1 : Scans a st st' c1) (h2 : Scans b st' st'' c2) : Scans (a ++ b) st st'' (c1 ++ c2) := by
  obtain ⟨h1a, h1b⟩ := h1
  obtain ⟨h2a, h2b⟩ := h2
  subst h1a
  refine ⟨?_, ?_⟩
  · rw [tokRun_append]; exact h2a
  · rw [tokRun_append, slotCalls_append, h1b, h2b]

theorem scans_nil (st : TokState) : Scans [] st st [] := ⟨rfl, rfl⟩

/-- Text without `<` leaves the tokenizer in the data state and emits nothing. -/
theorem scans_text (t : List Char) (h : ∀ c ∈ t, c.toNat ≠ 60) : Scans t .data .data [] := by
  induction t with
  | nil => exact scans_nil _
  | cons c cs ih =>
    have hc : c.toNat ≠ 60 := h c (List.mem_cons_self _ _)
    have ih' := ih (fun x hx => h x (List.mem_cons_of_mem _ hx))
    obtain ⟨i1, i2⟩ := ih'
    refine ⟨?_, ?_⟩
    · simp [tokRun, tokStep, hc, i1]
    · simp [tokRun, tokStep, hc, i2]

theorem replaceNewlines_append (a b : List Char) :
    replaceNewlines (a ++ b) = replaceNewlines a ++ replaceNewlines b := by
  simp [replaceNewlines]

theorem replaceNewlines_cons (c : Char) (cs : List Char) :
    replaceNewlines (c :: cs) = (if c = '\n' then "<br>".data else [c]) ++ replaceNewlines cs := by
  simp [replaceNewlines]

theorem replaceNewlines_eq_self (t : List Char) (h : ∀ c ∈ t, c ≠ '\n') :
    replaceNewlines t = t := by
  induction t with
  | nil => rfl
  | cons c cs ih =>
    rw [replaceNewlines_cons, if_neg (h c (List.mem_cons_self _ _)),
      ih (fun x hx => h x (List.mem_cons_of_mem _ hx))]
    rfl

theorem scans_br : Scans "<br>".data .data .data [] := ⟨by decide, by decide⟩

/-- A message without `<`, line breaks replaced, leaves the tokenizer in the data state:
the `<br>` tags are no slot buttons. -/
theorem scans_replaceNewlines (m : List Char) (h : ∀ c ∈ m, c.toNat ≠ 60) :
    Scans (replaceNewlines m) .data .data [] := by
  induction m with
  | nil => exact scans_nil _
  | cons c cs ih =>
    rw [replaceNewlines_cons]
    have ih' := ih (fun x hx => h x (List.mem_cons_of_mem _ hx))
    split_ifs with hc
    · simpa using scans_br.append ih'
    · have : Scans [c] .data .data [] :=
        scans_text [c] (by simpa using h c (List.mem_cons_self _ _))
      simpa using this.append ih'

theorem tokChar_eq (c : Char) (h : c.toNat ≠ 0) : tokChar c = c := by
  simp [tokChar, h]

/-- A double-quoted attribute value without `"` and NUL is read up to the closing quote. -/
theorem tokRun_valueDQ (v : List Char) (h : ∀ c ∈ v, c.toNat ≠ 34 ∧ c.toNat ≠ 0)
    (tag : Tag) (name acc : List Char) :
    tokRun (v ++ [Char.ofNat 34]) (.attrValueDQ tag name acc)
      = (.afterAttrValueQ (tag.addAttr name (acc ++ v)), []) := by
  induction v generalizing acc with
  | nil => simp [tokRun, tokStep]
  | cons c cs ih =>
    obtain ⟨h1, h2⟩ := h c (List.mem_cons_self _ _)
    have := ih (fun x hx => h x (List.mem_cons_of_mem _ hx)) (acc ++ [c])
    rw [List.cons_append]
    simp only [tokRun, tokStep, h1, if_false, tokChar_eq c h2, List.nil_append]
    rw [this]
    simp

/-- A single-quoted attribute value without apostrophe and NUL is read up to the
closing apostrophe. -/
theorem tokRun_valueSQ (v : List Char) (h : ∀ c ∈ v, c.toNat ≠ 39 ∧ c.toNat ≠ 0)
    (tag : Tag) (name acc : List Char) :
    tokRun (v ++ [Char.ofNat 39]) (.attrValueSQ tag name acc)
      = (.afterAttrValueQ (tag.addAttr name (acc ++ v)), []) := by
  induction v generalizing acc with
  | nil => simp [tokRun, tokStep]
  | cons c cs ih =>
    obtain ⟨h1, h2⟩ := h c (List.mem_cons_self _ _)
    have := ih (fun x hx => h x (List.mem_cons_of_mem _ hx)) (acc ++ [c])
    rw [List.cons_append]
    simp only [tokRun, tokStep, h1, if_false, tokChar_eq c h2, List.nil_append]
    rw [this]
    simp


/-! #### Characters of the generated pieces -/

theorem isPlainChar_iff (c : Char) :
    isPlainChar c = true ↔ 0x20 ≤ c.toNat ∧ c.toNat ≠ 34 ∧ c.toNat ≠ 39 ∧ c.toNat ≠ 42
      ∧ c.toNat ≠ 92 ∧ c.toNat ≠ 96 ∧ c.toNat ≠ 0x2028 ∧ c.toNat ≠ 0x2029 := by
  simp only [isPlainChar, Bool.and_eq_true, decide_eq_true_eq, Bool.not_eq_true',
    Bool.or_eq_false_iff, decide_eq_false_iff_not]
  tauto

theorem char_ne_of_toNat_ne {c d : Char} (h : c.toNat ≠ d.toNat) : c ≠ d :=
  fun e => h (by rw [e])

theorem mem_escapeChars {x : Char} {d : List Char} (h : x ∈ escapeChars d) :
    x ∈ d ∨ x ∈ "&amp;lt;gt;nbsp;".data := by
  unfold escapeChars at h
  rw [List.mem_flatMap] at h
  obtain ⟨c, hc, hx⟩ := h
  unfold escapeChar at hx
  split_ifs at hx
  · right; revert hx; revert x; decide
  · right; revert hx; revert x; decide
  · right; revert hx; revert x; decide
  · right; revert hx; revert x; decide
  · left
    rw [List.mem_singleton] at hx
    rw [hx]; exact hc

theorem entity_letters_plain :
    ∀ x ∈ "&amp;lt;gt;nbsp;".data,
      0x20 ≤ x.toNat ∧ x.toNat ≠ 34 ∧ x.toNat ≠ 39 ∧ x.toNat ≠ 42 ∧ x.toNat ≠ 92 ∧ x.toNat ≠ 96
        ∧ x.toNat ≠ 0x2028 ∧ x.toNat ≠ 0x2029 := by
  decide

/-- Every character of an escaped plain label is plain, or a letter of a character
reference. -/
theorem escapeChars_plain {x : Char} {d : List Char} (hd : ∀ c ∈ d, isPlainChar c = true)
    (h : x ∈ escapeChars d) :
    0x20 ≤ x.toNat ∧ x.toNat ≠ 34 ∧ x.toNat ≠ 39 ∧ x.toNat ≠ 42 ∧ x.toNat ≠ 92 ∧ x.toNat ≠ 96
      ∧ x.toNat ≠ 0x2028 ∧ x.toNat ≠ 0x2029 ∧ x.toNat ≠ 60 := by
  have h60 : x.toNat ≠ 60 := by
    intro h60
    have : x = '<' := by
      apply Char.ext
      apply UInt32.ext
      simpa [Char.toNat] using h60
    exact not_mem_escapeChars d x (Or.inl this) h
  rcases mem_escapeChars h with h1 | h1
  · obtain ⟨a, b, c, e, f, g, i, j⟩ := (isPlainChar_iff x).1 (hd x h1)
    exact ⟨a, b, c, e, f, g, i, j, h60⟩
  · obtain ⟨a, b, c, e, f, g, i, j⟩ := entity_letters_plain x h1
    exact ⟨a, b, c, e, f, g, i, j, h60⟩

theorem jsonEscapeChar_plain (c : Char) (h : isPlainChar c = true) : jsonEscapeChar c = [c] := by
  obtain ⟨a, b, _, _, e, _, _, _⟩ := (isPlainChar_iff c).1 h
  have h1 : c ≠ '"' := char_ne_of_toNat_ne (by simpa using b)
  have h2 : c ≠ '\\' := char_ne_of_toNat_ne (by simpa using e)
  have h3 : ¬ c.toNat < 0x20 := by omega
  have h4 : c.toNat ≠ 0x08 := by omega
  have h5 : c.toNat ≠ 0x09 := by omega
  have h6 : c.toNat ≠ 0x0A := by omega
  have h7 : c.toNat ≠ 0x0C := by omega
  have h8 : c.toNat ≠ 0x0D := by omega
  simp [jsonEscapeChar, h1, h2, h3, h4, h5, h6, h7, h8]

theorem flatMap_jsonEscapeChar_plain (l : List Char) (h : ∀ c ∈ l, isPlainChar c = true) :
    l.flatMap jsonEscapeChar = l := by
  induction l with
  | nil => rfl
  | cons c cs ih =>
    rw [List.flatMap_cons, jsonEscapeChar_plain c (h c (List.mem_cons_self _ _)),
      ih (fun x hx => h x (List.mem_cons_of_mem _ hx))]
    rfl

theorem jsonQuote_plain (s : String) (h : ∀ c ∈ s.data, isPlainChar c = true) :
    (jsonQuote s).data = [Char.ofNat 34] ++ s.data ++ [Char.ofNat 34] := by
  simp only [jsonQuote, String.data_append, flatMap_jsonEscapeChar_plain s.data h]


/-! #### The start tag of a slot button -/

/-- The start tag the tokenizer reads for a slot button with handler `V` and data `J`. -/
theorem tokRun_slotButtonOpen (V J : List Char) (hV : ∀ c ∈ V, c.toNat ≠ 34 ∧ c.toNat ≠ 0)
    (hJ : ∀ c ∈ J, c.toNat ≠ 39 ∧ c.toNat ≠ 0) :
    tokRun ("<button class=\"timeslot-btn\" onclick=\"".data ++ (V ++ [Char.ofNat 34])
        ++ " data-slot='".data ++ (J ++ [Char.ofNat 39]) ++ [Char.ofNat 62]) .data
      = (.data, [Tag.mk false "button".data
          [("class".data, "timeslot-btn".data), ("onclick".data, V), ("data-slot".data, J)]]) := by
  have hA : tokRun "<button class=\"timeslot-btn\" onclick=\"".data .data
      = (.attrValueDQ (Tag.mk false "button".data [("class".data, "timeslot-btn".data)])
          "onclick".data [], []) := by
    decide
  have hB : ∀ tag, tokRun " data-slot='".data (.afterAttrValueQ tag)
      = (.attrValueSQ tag "data-slot".data [], []) := by
    intro tag
    rfl
  have hC : ∀ tag, tokRun [Char.ofNat 62] (.afterAttrValueQ tag) = (.data, [tag]) := by
    intro tag
    rfl
  simp only [tokRun_append, hA, tokRun_valueDQ V hV, hB, tokRun_valueSQ J hJ, hC]
  rfl


/-! #### Decoding and evaluating the handler -/

theorem decodeEntitiesAux_plain_append (a t : List Char) (ha : ∀ c ∈ a, c ≠ '&') (fuel : Nat)
    (h : (a ++ t).length ≤ fuel) :
    ∃ fuel', t.length ≤ fuel' ∧ decodeEntitiesAux fuel (a ++ t) = a ++ decodeEntitiesAux fuel' t := by
  induction a generalizing fuel with
  | nil => exact ⟨fuel, by simpa using h, rfl⟩
  | cons c cs ih =>
    cases fuel with
    | zero => simp at h
    | succ f =>
      obtain ⟨f', hf', heq⟩ := ih (fun x hx => ha x (List.mem_cons_of_mem _ hx)) f
        (by simp at h ⊢; omega)
      refine ⟨f', hf', ?_⟩
      have hc : c ≠ '&' := ha c (List.mem_cons_self _ _)
      rw [List.cons_append]
      simp only [decodeEntitiesAux, hc, if_false, heq]
      rfl

theorem decodeEntitiesAux_escapeChars_append (d t : List Char) (fuel : Nat)
    (h : (escapeChars d ++ t).length ≤ fuel) :
    ∃ fuel', t.length ≤ fuel' ∧
      decodeEntitiesAux fuel (escapeChars d ++ t) = d ++ decodeEntitiesAux fuel' t := by
  induction d generalizing fuel with
  | nil => exact ⟨fuel, by simpa [escapeChars] using h, by simp [escapeChars]⟩
  | cons c cs ih =>
    rw [escapeChars_cons, List.append_assoc] at h ⊢
    cases fuel with
    | zero =>
      exfalso
      have : 0 < (escapeChar c).length := by
        unfold escapeChar; split_ifs <;> simp
      rw [List.length_append] at h
      omega
    | succ f =>
      obtain ⟨f1, hf1, heq1⟩ := decodeEntitiesAux_escapeChar_append c (escapeChars cs ++ t) f h
      obtain ⟨f2, hf2, heq2⟩ := ih f1 hf1
      exact ⟨f2, hf2, by rw [heq1, heq2]; rfl⟩

theorem decodeEntitiesAux_plain (b : List Char) (hb : ∀ c ∈ b, c ≠ '&') (fuel : Nat) :
    decodeEntitiesAux fuel b = b := by
  induction b generalizing fuel with
  | nil => cases fuel <;> rfl
  | cons c cs ih =>
    cases fuel with
    | zero => rfl
    | succ f =>
      have hc : c ≠ '&' := hb c (List.mem_cons_self _ _)
      simp only [decodeEntitiesAux, hc, if_false,
        ih (fun x hx => hb x (List.mem_cons_of_mem _ hx)) f]

/-- Decoding gives back a text that was escaped between two texts without `&`. -/
theorem decodeEntities_wrapped (a d b : List Char) (ha : ∀ c ∈ a, c ≠ '&')
    (hb : ∀ c ∈ b, c ≠ '&') :
    decodeEntities (a ++ escapeChars d ++ b) = a ++ d ++ b := by
  unfold decodeEntities
  rw [List.append_assoc]
  obtain ⟨f1, hf1, h1⟩ := decodeEntitiesAux_plain_append a (escapeChars d ++ b) ha
    (a ++ (escapeChars d ++ b)).length (le_refl _)
  obtain ⟨f2, _, h2⟩ := decodeEntitiesAux_escapeChars_append d b f1 hf1
  rw [h1, h2, decodeEntitiesAux_plain b hb, List.append_assoc]

/-- The plain call `chatUI.handleTimeslotSelection('L')` passes `L`. -/
theorem slotCallArgument_plain (d : List Char) (hd : ∀ c ∈ d, isLiteralChar c = true) :
    slotCallArgument ("chatUI.handleTimeslotSelection('".data ++ d ++ "')".data) = some d := by
  have hp : "chatUI.handleTimeslotSelection('".data.isPrefixOf
      ("chatUI.handleTimeslotSelection('".data ++ d ++ "')".data) = true := by
    rw [List.append_assoc, List.isPrefixOf_iff_prefix]
    exact List.prefix_append _ _
  have hdrop : ("chatUI.handleTimeslotSelection('".data ++ d ++ "')".data).drop
      "chatUI.handleTimeslotSelection('".data.length = d ++ "')".data := by
    rw [List.append_assoc, List.drop_left]
  have hlen : (d ++ "')".data).length - 2 = d.length := by
    simp
  unfold slotCallArgument
  rw [if_pos hp]
  simp only [hdrop, hlen, List.drop_left, List.take_left]
  have hall : d.all isLiteralChar = true := List.all_eq_true.2 hd
  simp [hall]

theorem forall_mem_append {P : Char → Prop} {a b : List Char} (ha : ∀ c ∈ a, P c)
    (hb : ∀ c ∈ b, P c) : ∀ c ∈ a ++ b, P c := by
  intro c hc
  rcases List.mem_append.1 hc with h | h
  · exact ha c h
  · exact hb c h

theorem slotButton_data (slot : Slot) (hd : ∀ c ∈ slot.display.data, isPlainChar c = true)
    (hs : ∀ c ∈ slot.start_time.data, isPlainChar c = true)
    (he : ∀ c ∈ slot.end_time.data, isPlainChar c = true) :
    (ChatUI.slotButton slot).data
      = "<button class=\"timeslot-btn\" onclick=\"".data
        ++ ("chatUI.handleTimeslotSelection('".data ++ escapeChars slot.display.data ++ "')".data)
        ++ "\" data-slot='".data
        ++ ("\x7b\"display\":".data ++ ([Char.ofNat 34] ++ slot.display.data ++ [Char.ofNat 34])
            ++ ",\"start_time\":".data
            ++ ([Char.ofNat 34] ++ slot.start_time.data ++ [Char.ofNat 34])
            ++ ",\"end_time\":".data ++ ([Char.ofNat 34] ++ slot.end_time.data ++ [Char.ofNat 34])
            ++ "\x7d".data)
        ++ "'>\n".data
        ++ "                <div class=\"slot-time\">".data ++ escapeChars slot.display.data
        ++ "</div>\n".data
        ++ "                <div class=\"slot-duration\">".data ++ slot.start_time.data
        ++ " - ".data ++ slot.end_time.data ++ "</div>\n".data ++ "            </button>".data := by
  simp only [ChatUI.slotButton, ChatUI.slotOnclick, ChatUI.slotJson, String.data_append,
    jsonQuote_plain _ hd, jsonQuote_plain _ hs, jsonQuote_plain _ he, escapeHtml]


theorem ne_newline_of_ge {c : Char} (h : 0x20 ≤ c.toNat) : c ≠ '\n' := by
  intro e
  rw [e] at h
  exact absurd h (by decide)

theorem plain_ge {l : List Char} (h : ∀ c ∈ l, isPlainChar c = true) :
    ∀ c ∈ l, 0x20 ≤ c.toNat :=
  fun c hc => ((isPlainChar_iff c).1 (h c hc)).1

/-- The characters of the handler text of a slot with a plain label. -/
theorem handler_chars (d : List Char) (hd : ∀ c ∈ d, isPlainChar c = true) :
    ∀ c ∈ "chatUI.handleTimeslotSelection('".data ++ escapeChars d ++ "')".data,
      0x20 ≤ c.toNat ∧ c.toNat ≠ 34 ∧ c.toNat ≠ 42 ∧ c.toNat ≠ 96 := by
  apply forall_mem_append
  · apply forall_mem_append
    · decide
    · intro c hc
      obtain ⟨a, b, _, e, _, g, _⟩ := escapeChars_plain hd hc
      exact ⟨a, b, e, g⟩
  · decide

/-- The characters of the JSON text of a slot with plain fields. -/
theorem slotJson_chars (d s e : List Char) (hd : ∀ c ∈ d, isPlainChar c = true)
    (hs : ∀ c ∈ s, isPlainChar c = true) (he : ∀ c ∈ e, isPlainChar c = true) :
    ∀ c ∈ "\x7b\"display\":".data ++ ([Char.ofNat 34] ++ d ++ [Char.ofNat 34])
            ++ ",\"start_time\":".data ++ ([Char.ofNat 34] ++ s ++ [Char.ofNat 34])
            ++ ",\"end_time\":".data ++ ([Char.ofNat 34] ++ e ++ [Char.ofNat 34])
            ++ "\x7d".data,
      0x20 ≤ c.toNat ∧ c.toNat ≠ 39 ∧ c.toNat ≠ 42 ∧ c.toNat ≠ 96 := by
  have plain : ∀ l : List Char, (∀ c ∈ l, isPlainChar c = true) →
      ∀ c ∈ [Char.ofNat 34] ++ l ++ [Char.ofNat 34],
        0x20 ≤ c.toNat ∧ c.toNat ≠ 39 ∧ c.toNat ≠ 42 ∧ c.toNat ≠ 96 := by
    intro l hl
    apply forall_mem_append
    · apply forall_mem_append
      · decide
      · intro c hc
        obtain ⟨a, _, b, e, _, g, _⟩ := (isPlainChar_iff c).1 (hl c hc)
        exact ⟨a, b, e, g⟩
    · decide
  apply forall_mem_append
  · apply forall_mem_append
    · apply forall_mem_append
      · apply forall_mem_append
        · apply forall_mem_append
          · apply forall_mem_append
            · decide
            · exact plain d hd
          · decide
        · exact plain s hs
      · decide
    · exact plain e he
  · decide

theorem replaceNewlines_chain (a1 a2 a3 a4 a5 a6 a7 a8 a9 a10 a11 a12 a13 a14 : List Char) :
    replaceNewlines (a1 ++ a2 ++ a3 ++ a4 ++ a5 ++ a6 ++ a7 ++ a8 ++ a9 ++ a10 ++ a11 ++ a12
        ++ a13 ++ a14)
      = replaceNewlines a1 ++ replaceNewlines a2 ++ replaceNewlines a3 ++ replaceNewlines a4
        ++ replaceNewlines a5 ++ replaceNewlines a6 ++ replaceNewlines a7 ++ replaceNewlines a8
        ++ replaceNewlines a9 ++ replaceNewlines a10 ++ replaceNewlines a11
        ++ replaceNewlines a12 ++ replaceNewlines a13 ++ replaceNewlines a14 := by
  simp only [replaceNewlines_append]

theorem slotButton_reassoc (a1 v a2 j a3 a4 e a5 a6 s a7 n a8 a9 : List Char) (q a g : Char) :
    a1 ++ v ++ (q :: a2) ++ j ++ (a :: g :: a3) ++ a4 ++ e ++ a5 ++ a6 ++ s ++ a7 ++ n ++ a8
        ++ a9
      = (a1 ++ (v ++ [q]) ++ a2 ++ (j ++ [a]) ++ [g])
        ++ (a3 ++ a4 ++ e ++ a5 ++ a6 ++ s ++ a7 ++ n ++ a8 ++ a9) := by
  simp only [List.append_assoc, List.cons_append, List.nil_append, List.singleton_append]

/-- A slot button after `formatMessage` has replaced its line breaks. -/
theorem rendered_slotButton (slot : Slot) (hd : ∀ c ∈ slot.display.data, isPlainChar c = true)
    (hs : ∀ c ∈ slot.start_time.data, isPlainChar c = true)
    (he : ∀ c ∈ slot.end_time.data, isPlainChar c = true) :
    replaceNewlines (ChatUI.slotButton slot).data
      = ("<button class=\"timeslot-btn\" onclick=\"".data
          ++ (("chatUI.handleTimeslotSelection('".data ++ escapeChars slot.display.data
                ++ "')".data) ++ [Char.ofNat 34])
          ++ " data-slot='".data
          ++ (("\x7b\"display\":".data ++ ([Char.ofNat 34] ++ slot.display.data ++ [Char.ofNat 34])
            ++ ",\"start_time\":".data
            ++ ([Char.ofNat 34] ++ slot.start_time.data ++ [Char.ofNat 34])
            ++ ",\"end_time\":".data ++ ([Char.ofNat 34] ++ slot.end_time.data ++ [Char.ofNat 34])
            ++ "\x7d".data) ++ [Char.ofNat 39])
          ++ [Char.ofNat 62])
        ++ ("<br>".data ++ "                <div class=\"slot-time\">".data
          ++ escapeChars slot.display.data
          ++ "</div><br>".data ++ "                <div class=\"slot-duration\">".data
          ++ slot.start_time.data ++ " - ".data ++ slot.end_time.data
          ++ "</div><br>".data ++ "            </button>".data) := by
  have hV := replaceNewlines_eq_self _
    (fun c hc => ne_newline_of_ge (handler_chars slot.display.data hd c hc).1)
  have hJ := replaceNewlines_eq_self _
    (fun c hc => ne_newline_of_ge
      (slotJson_chars slot.display.data slot.start_time.data slot.end_time.data hd hs he c hc).1)
  have hE := replaceNewlines_eq_self (escapeChars slot.display.data)
    (fun c hc => ne_newline_of_ge (escapeChars_plain hd hc).1)
  have hS := replaceNewlines_eq_self slot.start_time.data
    (fun c hc => ne_newline_of_ge (plain_ge hs c hc))
  have hN := replaceNewlines_eq_self slot.end_time.data
    (fun c hc => ne_newline_of_ge (plain_ge he c hc))
  have l1 : replaceNewlines "<button class=\"timeslot-btn\" onclick=\"".data
      = "<button class=\"timeslot-btn\" onclick=\"".data := by decide
  have l2 : replaceNewlines "\" data-slot='".data = Char.ofNat 34 :: " data-slot='".data := by
    decide
  have l3 : replaceNewlines "'>\n".data = Char.ofNat 39 :: Char.ofNat 62 :: "<br>".data := by
    decide
  have l4 : replaceNewlines "                <div class=\"slot-time\">".data
      = "                <div class=\"slot-time\">".data := by decide
  have l5 : replaceNewlines "</div>\n".data = "</div><br>".data := by decide
  have l6 : replaceNewlines "                <div class=\"slot-duration\">".data
      = "                <div class=\"slot-duration\">".data := by decide
  have l7 : replaceNewlines " - ".data = " - ".data := by decide
  have l8 : replaceNewlines "            </button>".data = "            </button>".data := by
    decide
  rw [slotButton_data slot hd hs he, replaceNewlines_chain, hV, hJ, hE, hS, hN, l1, l2, l3, l4,
    l5, l6, l7, l8]
  exact slotButton_reassoc _ _ _ _ _ _ _ _ _ _ _ _ _ _ _ _ _

theorem Scans.append_nil {a b : List Char} {st st' st'' : TokState} {c : List (Option String)}
    (h1 : Scans a st st' c) (h2 : Scans b st' st'' []) : Scans (a ++ b) st st'' c := by
  simpa using h1.append h2

theorem toNat_ne_60_of_plainText {l : List Char}
    (h : ∀ c ∈ l, (isPlainChar c && !decide (c.toNat = 60)) = true) :
    (∀ c ∈ l, isPlainChar c = true) ∧ ∀ c ∈ l, c.toNat ≠ 60 := by
  constructor
  · intro c hc
    have := h c hc
    simp only [Bool.and_eq_true] at this
    exact this.1
  · intro c hc
    have := h c hc
    simp only [Bool.and_eq_true, Bool.not_eq_true', decide_eq_false_iff_not] at this
    exact this.2

/-- The rendered markup of one slot button is read as one slot button, whose click
passes the display label. -/
theorem scans_slotButton (slot : Slot) (hd : ∀ c ∈ slot.display.data, isPlainChar c = true)
    (hs : ∀ c ∈ slot.start_time.data, (isPlainChar c && !decide (c.toNat = 60)) = true)
    (he : ∀ c ∈ slot.end_time.data, (isPlainChar c && !decide (c.toNat = 60)) = true) :
    Scans (replaceNewlines (ChatUI.slotButton slot).data) .data .data [some slot.display] := by
  obtain ⟨hs1, hs2⟩ := toNat_ne_60_of_plainText hs
  obtain ⟨he1, he2⟩ := toNat_ne_60_of_plainText he
  rw [rendered_slotButton slot hd hs1 he1]
  have hopen := tokRun_slotButtonOpen
    ("chatUI.handleTimeslotSelection('".data ++ escapeChars slot.display.data ++ "')".data)
    ("\x7b\"display\":".data ++ ([Char.ofNat 34] ++ slot.display.data ++ [Char.ofNat 34])
            ++ ",\"start_time\":".data
            ++ ([Char.ofNat 34] ++ slot.start_time.data ++ [Char.ofNat 34])
            ++ ",\"end_time\":".data ++ ([Char.ofNat 34] ++ slot.end_time.data ++ [Char.ofNat 34])
            ++ "\x7d".data)
    (fun c hc => by
      obtain ⟨a, b, _, _⟩ := handler_chars slot.display.data hd c hc
      exact ⟨b, by omega⟩)
    (fun c hc => by
      obtain ⟨a, b, _, _⟩ := slotJson_chars slot.display.data slot.start_time.data
        slot.end_time.data hd hs1 he1 c hc
      exact ⟨b, by omega⟩)
  have hlit : ∀ c ∈ slot.display.data, isLiteralChar c = true := by
    intro c hc
    obtain ⟨a, _, b, _, e, _, g, i⟩ := (isPlainChar_iff c).1 (hd c hc)
    have n1 : c.toNat ≠ 0x0A := by omega
    have n2 : c.toNat ≠ 0x0D := by omega
    simp [isLiteralChar, isLineTerminator, b, e, g, i, n1, n2]
  have hcall : slotCall (Tag.mk false "button".data
      [("class".data, "timeslot-btn".data),
       ("onclick".data, "chatUI.handleTimeslotSelection('".data
          ++ escapeChars slot.display.data ++ "')".data),
       ("data-slot".data, "\x7b\"display\":".data
            ++ ([Char.ofNat 34] ++ slot.display.data ++ [Char.ofNat 34])
            ++ ",\"start_time\":".data
            ++ ([Char.ofNat 34] ++ slot.start_time.data ++ [Char.ofNat 34])
            ++ ",\"end_time\":".data ++ ([Char.ofNat 34] ++ slot.end_time.data ++ [Char.ofNat 34])
            ++ "\x7d".data)]) = some slot.display := by
    have hl : List.lookup "onclick".data
        [("class".data, "timeslot-btn".data),
         ("onclick".data, "chatUI.handleTimeslotSelection('".data
            ++ escapeChars slot.display.data ++ "')".data),
         ("data-slot".data, "\x7b\"display\":".data
            ++ ([Char.ofNat 34] ++ slot.display.data ++ [Char.ofNat 34])
            ++ ",\"start_time\":".data
            ++ ([Char.ofNat 34] ++ slot.start_time.data ++ [Char.ofNat 34])
            ++ ",\"end_time\":".data ++ ([Char.ofNat 34] ++ slot.end_time.data ++ [Char.ofNat 34])
            ++ "\x7d".data)]
        = some ("chatUI.handleTimeslotSelection('".data
            ++ escapeChars slot.display.data ++ "')".data) := rfl
    simp only [slotCall, Tag.attr, hl]
    rw [decodeEntities_wrapped _ _ _ (by decide) (by decide),
      slotCallArgument_plain _ hlit]
    rfl
  have hbutton : isSlotButton (Tag.mk false "button".data
      [("class".data, "timeslot-btn".data),
       ("onclick".data, "chatUI.handleTimeslotSelection('".data
          ++ escapeChars slot.display.data ++ "')".data),
       ("data-slot".data, "\x7b\"display\":".data
            ++ ([Char.ofNat 34] ++ slot.display.data ++ [Char.ofNat 34])
            ++ ",\"start_time\":".data
            ++ ([Char.ofNat 34] ++ slot.start_time.data ++ [Char.ofNat 34])
            ++ ",\"end_time\":".data ++ ([Char.ofNat 34] ++ slot.end_time.data ++ [Char.ofNat 34])
            ++ "\x7d".data)]) = true := rfl
  have sopen : Scans _ .data .data [some slot.display] :=
    ⟨congrArg Prod.fst hopen, by
      rw [hopen]
      simp only [slotCalls, List.filter_cons, hbutton, if_true, List.filter_nil, List.map_cons,
        List.map_nil, hcall]⟩
  have sE : Scans (escapeChars slot.display.data) .data .data [] :=
    scans_text _ (fun c hc => (escapeChars_plain hd hc).2.2.2.2.2.2.2.2)
  have sS : Scans slot.start_time.data .data .data [] := scans_text _ hs2
  have sN : Scans slot.end_time.data .data .data [] := scans_text _ he2
  have s1 : Scans "<br>".data .data .data [] := ⟨by decide, by decide⟩
  have s2 : Scans "                <div class=\"slot-time\">".data .data .data [] :=
    ⟨by decide, by decide⟩
  have s3 : Scans "</div><br>".data .data .data [] := ⟨by decide, by decide⟩
  have s4 : Scans "                <div class=\"slot-duration\">".data .data .data [] :=
    ⟨by decide, by decide⟩
  have s5 : Scans " - ".data .data .data [] := ⟨by decide, by decide⟩
  have s6 : Scans "            </button>".data .data .data [] := ⟨by decide, by decide⟩
  exact sopen.append_nil
    (((((((((s1.append_nil s2).append_nil sE).append_nil s3).append_nil s4).append_nil
      sS).append_nil s5).append_nil sN).append_nil s3).append_nil s6)

/-! #### `formatMessage` on text without `*` and backtick -/

theorem replaceDelimitedAux_absent (x : Char) (ds left right : List Char) (fuel : Nat)
    (s : List Char) (h : ∀ c ∈ s, c ≠ x) :
    replaceDelimitedAux (x :: ds) left right fuel s = s := by
  induction fuel generalizing s with
  | zero => rfl
  | succ f ih =>
    cases s with
    | nil => rfl
    | cons c cs =>
      have hc : c ≠ x := h c (List.mem_cons_self _ _)
      have hx : (x == c) = false := by
        simpa using fun e => hc e.symm
      have hp : (x :: ds).isPrefixOf (c :: cs) = false := by
        simp [List.isPrefixOf, hx]
      simp only [replaceDelimitedAux, hp, ih cs (fun y hy => h y (List.mem_cons_of_mem _ hy))]
      rfl

/-- Without `*` and backtick in the text, `formatMessage` only replaces line breaks. -/
theorem formatMessage_plain (text : String)
    (h : ∀ c ∈ text.data, c ≠ '*' ∧ c ≠ Char.ofNat 96) :
    (formatMessage text).data = replaceNewlines text.data := by
  have h1 : ∀ c ∈ text.data, c ≠ '*' := fun c hc => (h c hc).1
  have h2 : ∀ c ∈ text.data, c ≠ Char.ofNat 96 := fun c hc => (h c hc).2
  simp only [formatMessage, replaceDelimited, replaceDelimitedAux_absent '*' _ _ _ _ _ h1,
    replaceDelimitedAux_absent (Char.ofNat 96) _ _ _ _ _ h2]

theorem String.data_join (l : List String) :
    (String.join l).data = (l.map String.data).flatten := by
  have : ∀ (acc : String) (l : List String),
      (l.foldl (fun r s => r ++ s) acc).data = acc.data ++ (l.map String.data).flatten := by
    intro acc l
    induction l generalizing acc with
    | nil => simp
    | cons s rest ih => simp [ih, String.data_append, List.append_assoc]
  simpa [String.join] using this "" l

theorem replaceNewlines_flatten (ls : List (List Char)) :
    replaceNewlines ls.flatten = (ls.map replaceNewlines).flatten := by
  induction ls with
  | nil => rfl
  | cons l rest ih => simp [replaceNewlines_append, ih]

/-- The rendered markup of the slot buttons is read as one slot button per slot, in list
order, each passing its display label. -/
theorem scans_slotButtons (slots : List Slot)
    (h : ∀ slot ∈ slots, isPlainLabel slot.display = true ∧ isPlainText slot.start_time = true
      ∧ isPlainText slot.end_time = true) :
    Scans (replaceNewlines (String.join (slots.map ChatUI.slotButton)).data) .data .data
      (slots.map (fun slot => some slot.display)) := by
  rw [String.data_join, replaceNewlines_flatten]
  induction slots with
  | nil => exact scans_nil _
  | cons slot rest ih =>
    obtain ⟨h1, h2, h3⟩ := h slot (List.mem_cons_self _ _)
    have hb := scans_slotButton slot (List.all_eq_true.1 h1) (List.all_eq_true.1 h2)
      (List.all_eq_true.1 h3)
    have := hb.append (ih (fun s hs => h s (List.mem_cons_of_mem _ hs)))
    simpa using this

/-! #### The whole entry -/

theorem no_star_of_toNat {c : Char} (h1 : c.toNat ≠ 42) (h2 : c.toNat ≠ 96) :
    c ≠ '*' ∧ c ≠ Char.ofNat 96 :=
  ⟨char_ne_of_toNat_ne (by simpa using h1), char_ne_of_toNat_ne (by simpa using h2)⟩

theorem slotButton_no_star (slot : Slot) (hd : ∀ c ∈ slot.display.data, isPlainChar c = true)
    (hs : ∀ c ∈ slot.start_time.data, isPlainChar c = true)
    (he : ∀ c ∈ slot.end_time.data, isPlainChar c = true) :
    ∀ c ∈ (ChatUI.slotButton slot).data, c ≠ '*' ∧ c ≠ Char.ofNat 96 := by
  have plain : ∀ l : List Char, (∀ c ∈ l, isPlainChar c = true) →
      ∀ c ∈ l, c ≠ '*' ∧ c ≠ Char.ofNat 96 := by
    intro l hl c hc
    obtain ⟨_, _, _, e, _, g, _⟩ := (isPlainChar_iff c).1 (hl c hc)
    exact no_star_of_toNat e g
  have hE : ∀ c ∈ escapeChars slot.display.data, c ≠ '*' ∧ c ≠ Char.ofNat 96 := by
    intro c hc
    obtain ⟨_, _, _, e, _, g, _⟩ := escapeChars_plain hd hc
    exact no_star_of_toNat e g
  rw [slotButton_data slot hd hs he]
  apply forall_mem_append
  · apply forall_mem_append
    · apply forall_mem_append
      · apply forall_mem_append
        · apply forall_mem_append
          · apply forall_mem_append
            · apply forall_mem_append
              · apply forall_mem_append
                · apply forall_mem_append
                  · apply forall_mem_append
                    · apply forall_mem_append
                      · apply forall_mem_append
                        · apply forall_mem_append
                          · decide
                          · intro c hc
                            obtain ⟨_, _, e, g⟩ := handler_chars slot.display.data hd c hc
                            exact no_star_of_toNat e g
                        · decide
                      · intro c hc
                        obtain ⟨_, _, e, g⟩ := slotJson_chars slot.display.data
                          slot.start_time.data slot.end_time.data hd hs he c hc
                        exact no_star_of_toNat e g
                    · decide
                  · decide
                · exact hE
              · decide
            · decide
          · exact plain _ hs
        · decide
      · exact plain _ he
    · decide
  · decide

theorem mem_flatten_map {P : Char → Prop} {α : Type} (l : List α) (f : α → List Char)
    (h : ∀ a ∈ l, ∀ c ∈ f a, P c) : ∀ c ∈ (l.map f).flatten, P c := by
  intro c hc
  rw [List.mem_flatten] at hc
  obtain ⟨x, hx, hcx⟩ := hc
  rw [List.mem_map] at hx
  obtain ⟨a, ha, rfl⟩ := hx
  exact h a ha c hcx

theorem scans_bubble (w1 m h1 h2 h3 g t1 t2 w2 w3 tm w4 : List Char)
    (calls : List (Option String))
    (s1 : Scans w1 .data .data [])
    (sm : Scans (replaceNewlines m) .data .data [])
    (sh1 : Scans (replaceNewlines h1) .data .data [])
    (sh2 : Scans (replaceNewlines h2) .data .data [])
    (sh3 : Scans (replaceNewlines h3) .data .data [])
    (sg : Scans (replaceNewlines g) .data .data calls)
    (st1 : Scans (replaceNewlines t1) .data .data [])
    (st2 : Scans (replaceNewlines t2) .data .data [])
    (s2 : Scans w2 .data .data [])
    (s3 : Scans w3 .data .data [])
    (stm : Scans tm .data .data [])
    (s4 : Scans w4 .data .data []) :
    Scans (w1 ++ replaceNewlines (m ++ (h1 ++ h2 ++ h3 ++ g ++ t1 ++ t2)) ++ w2 ++ w3 ++ tm ++ w4)
      .data .data calls := by
  have hc : Scans (replaceNewlines (m ++ (h1 ++ h2 ++ h3 ++ g ++ t1 ++ t2))) .data .data calls := by
    rw [replaceNewlines_append, replaceNewlines_append, replaceNewlines_append,
      replaceNewlines_append, replaceNewlines_append, replaceNewlines_append]
    have := sm.append (((((sh1.append sh2).append sh3).append sg).append_nil st1).append_nil st2)
    simpa using this
  have := ((((s1.append hc).append_nil s2).append_nil s3).append_nil stm).append_nil s4
  simpa using this

theorem bubbleHtml_data (content time : String) :
    (ChatUI.bubbleHtml content time).data
      = "\n            <div class=\"message-content\">".data ++ content.data ++ "</div>\n".data
        ++ "            <div class=\"message-time\">".data ++ time.data ++ "</div>\n        ".data := by
  simp only [ChatUI.bubbleHtml, String.data_append, List.append_assoc]

theorem timeslotContent_data (message : String) (slots : List Slot) :
    (message ++
          ("<div class=\"timeslot-selection\">\n"
          ++ "            <div class=\"timeslot-header\">Available Time Slots:</div>\n"
          ++ "            <div class=\"timeslot-grid\">" ++ String.join (slots.map ChatUI.slotButton)
          ++ "</div>\n" ++ "        </div>")).data
      = message.data ++ ("<div class=\"timeslot-selection\">\n".data
          ++ "            <div class=\"timeslot-header\">Available Time Slots:</div>\n".data
          ++ "            <div class=\"timeslot-grid\">".data
          ++ (String.join (slots.map ChatUI.slotButton)).data
          ++ "</div>\n".data ++ "        </div>".data) := by
  simp only [String.data_append]

theorem botEntry_timeslots (clock : Clock) (response : Response) (slots : List Slot)
    (hk : response.message_type = "timeslot_selection")
    (hs : response.available_slots = some slots) (hne : slots ≠ []) :
    (ChatUI.botEntry clock response).innerHTML
      = ChatUI.bubbleHtml (formatMessage (response.message ++
          ("<div class=\"timeslot-selection\">\n"
          ++ "            <div class=\"timeslot-header\">Available Time Slots:</div>\n"
          ++ "            <div class=\"timeslot-grid\">" ++ String.join (slots.map ChatUI.slotButton)
          ++ "</div>\n" ++ "        </div>"))) clock.timeString := by
  have hlen : ¬ slots.length = 0 := by
    intro h0
    exact hne (List.length_eq_zero.mp h0)
  have hb : ChatUI.botContent response
      = response.message ++ ChatUI.createTimeslotSelection slots := by
    simp [ChatUI.botContent, hk, hs]
  simp only [ChatUI.botEntry, hb, ChatUI.createTimeslotSelection, hlen, if_false]

theorem plainMessage_chars {s : String} (h : isPlainMessage s = true) :
    (∀ c ∈ s.data, c.toNat ≠ 60) ∧ ∀ c ∈ s.data, c ≠ '*' ∧ c ≠ Char.ofNat 96 := by
  have h0 := List.all_eq_true.1 h
  constructor
  · intro c hc
    have := h0 c hc
    simp only [Bool.not_eq_true', Bool.or_eq_false_iff, decide_eq_false_iff_not] at this
    exact this.1.1
  · intro c hc
    have := h0 c hc
    simp only [Bool.not_eq_true', Bool.or_eq_false_iff, decide_eq_false_iff_not] at this
    exact no_star_of_toNat this.1.2 this.2

/-- The bot entry of a timeslot response is read as one slot button per slot, in list
order, each passing its display label. -/
theorem renderedSlotCalls_botEntry (clock : Clock) (response : Response) (slots : List Slot)
    (hk : response.message_type = "timeslot_selection")
    (hs : response.available_slots = some slots) (hne : slots ≠ [])
    (hm : isPlainMessage response.message = true)
    (ht : isPlainMessage clock.timeString = true)
    (hp : ∀ slot ∈ slots, isPlainLabel slot.display = true ∧ isPlainText slot.start_time = true
      ∧ isPlainText slot.end_time = true) :
    ChatUI.renderedSlotCalls (ChatUI.botEntry clock response)
      = slots.map (fun slot => some slot.display) := by
  obtain ⟨hm1, hm2⟩ := plainMessage_chars hm
  obtain ⟨ht1, _⟩ := plainMessage_chars ht
  have hstar : ∀ c ∈ (response.message ++
          ("<div class=\"timeslot-selection\">\n"
          ++ "            <div class=\"timeslot-header\">Available Time Slots:</div>\n"
          ++ "            <div class=\"timeslot-grid\">" ++ String.join (slots.map ChatUI.slotButton)
          ++ "</div>\n" ++ "        </div>")).data, c ≠ '*' ∧ c ≠ Char.ofNat 96 := by
    rw [timeslotContent_data]
    apply forall_mem_append hm2
    apply forall_mem_append
    · apply forall_mem_append
      · apply forall_mem_append
        · apply forall_mem_append
          · apply forall_mem_append
            · decide
            · decide
          · decide
        · rw [String.data_join, List.map_map]
          apply mem_flatten_map
          intro slot hslot
          obtain ⟨h1, h2, h3⟩ := hp slot hslot
          obtain ⟨h2a, _⟩ := toNat_ne_60_of_plainText (List.all_eq_true.1 h2)
          obtain ⟨h3a, _⟩ := toNat_ne_60_of_plainText (List.all_eq_true.1 h3)
          exact slotButton_no_star slot (List.all_eq_true.1 h1) h2a h3a
      · decide
    · decide
  unfold ChatUI.renderedSlotCalls tokenize
  rw [botEntry_timeslots clock response slots hk hs hne, bubbleHtml_data,
    formatMessage_plain _ hstar, timeslotContent_data]
  exact (scans_bubble _ _ _ _ _ _ _ _ _ _ _ _ _ ⟨by decide, by decide⟩
    (scans_replaceNewlines _ hm1) ⟨by decide, by decide⟩ ⟨by decide, by decide⟩
    ⟨by decide, by decide⟩ (scans_slotButtons slots hp) ⟨by decide, by decide⟩
    ⟨by decide, by decide⟩ ⟨by decide, by decide⟩ ⟨by decide, by decide⟩
    (scans_text _ ht1) ⟨by decide, by decide⟩).2

/-! #### The claim -/

theorem exampleSlotResponse_rendered :
    ChatUI.renderedSlotCalls (ChatUI.botEntry exampleClock exampleSlotResponse)
      = [some " 9:00 AM", some "10:30 AM"] :=
  renderedSlotCalls_botEntry exampleClock exampleSlotResponse
    [exampleSlot, { display := "10:30 AM", start_time := "10:30", end_time := "11:30" }]
    (by decide) rfl (by simp) (by decide) (by decide) (by decide)

/-- C5 counterexample. The example response has message kind `timeslot_selection` and a
non-empty slot list whose first slot has the display label ` 9:00 AM` (space-padded
hour). Its bot entry, the last of the transcript once the response is displayed, renders
one slot button per slot, and the click of the first passes ` 9:00 AM` to
`handleTimeslotSelection`; that click posts the content `9:00 AM` and appends the user
entry of `9:00 AM`: neither is the slot's display label. -/
theorem timeslot_click_sends_display_label_counterexample :
    exampleSlotResponse.message_type = "timeslot_selection"
    ∧ exampleSlotResponse.available_slots.map List.head? = some (some exampleSlot)
    ∧ exampleSlotPage.chatUI.chatMessages.getLast?
        = some (ChatUI.botEntry exampleClock exampleSlotResponse)
    ∧ ChatUI.renderedSlotCalls (ChatUI.botEntry exampleClock exampleSlotResponse)
        = [some exampleSlot.display, some "10:30 AM"]
    ∧ (ChatUI.clickRenderedSlot exampleSlotPage
          (ChatUI.botEntry exampleClock exampleSlotResponse) 0).map
        (fun q => (q.requests.drop exampleSlotPage.requests.length).map Request.content)
        = some [some "9:00 AM"]
    ∧ (ChatUI.clickRenderedSlot exampleSlotPage
          (ChatUI.botEntry exampleClock exampleSlotResponse) 0).map
        (fun q => q.chatUI.chatMessages.drop exampleSlotPage.chatUI.chatMessages.length)
        = some [ChatUI.userEntry exampleClock "9:00 AM"]
    ∧ "9:00 AM" ≠ exampleSlot.display
    ∧ ChatUI.userEntry exampleClock "9:00 AM" ≠ ChatUI.userEntry exampleClock exampleSlot.display := by
  have hclick : ChatUI.clickRenderedSlot exampleSlotPage
      (ChatUI.botEntry exampleClock exampleSlotResponse) 0
      = some (ChatUI.handleTimeslotSelectionBegin exampleSlotPage " 9:00 AM") := by
    unfold ChatUI.clickRenderedSlot
    rw [exampleSlotResponse_rendered]
    rfl
  refine ⟨by decide, by decide, ?_, exampleSlotResponse_rendered, ?_, ?_, by decide, by decide⟩
  · rfl
  · rw [hclick]; decide
  · rw [hclick]; decide

/-- C5 amended. Take a response whose message kind is `timeslot_selection` with a
non-empty slot list, whose message has no `<`, `*` or backtick, and whose slots have
display labels made of plain characters (no control character, double quote,
apostrophe, `*`, backslash, backtick or line separator) and start and end times made of
plain characters other than `<`; the clock text has no `<`, `*` or backtick.
`displayBotMessage` appends one bot entry. The markup of that entry, read back, holds
exactly one slot button per slot, in list order, and the click of the button of a slot
passes that slot's display label to `handleTimeslotSelection`. Clicked on a reachable
page, the button of a slot whose trimmed label is non-empty posts the trimmed label as
the next user message and appends the trimmed label as a user transcript entry; the
button of a slot whose label is blank posts and appends nothing. -/
theorem timeslot_click_sends_trimmed_label (p q : Page) (response : Response)
    (slots : List Slot)
    (hk : response.message_type = "timeslot_selection")
    (hs : response.available_slots = some slots) (hne : slots ≠ [])
    (hm : isPlainMessage response.message = true)
    (ht : isPlainMessage p.clock.timeString = true)
    (hp : ∀ slot ∈ slots, isPlainLabel slot.display = true ∧ isPlainText slot.start_time = true
      ∧ isPlainText slot.end_time = true)
    (hq : Reachable q) :
    (ChatUI.displayBotMessage p response).chatUI.chatMessages
      = p.chatUI.chatMessages ++ [ChatUI.botEntry p.clock response]
    ∧ ((tokenize (ChatUI.botEntry p.clock response).innerHTML).filter isSlotButton).length
      = slots.length
    ∧ ChatUI.renderedSlotCalls (ChatUI.botEntry p.clock response)
      = slots.map (fun slot => some slot.display)
    ∧ (∀ (i : Nat) (slot : Slot), slots[i]? = some slot →
        ChatUI.clickRenderedSlot q (ChatUI.botEntry p.clock response) i
          = some (ChatUI.handleTimeslotSelectionBegin q slot.display)
        ∧ (trim slot.display ≠ "" →
          (ChatUI.handleTimeslotSelectionBegin q slot.display).requests
            = q.requests ++ [q.chatUI.apiClient.sendMessage q.clock (trim slot.display)
                q.chatUI.currentConversationState]
          ∧ (ChatUI.handleTimeslotSelectionBegin q slot.display).chatUI.chatMessages
            = q.chatUI.chatMessages ++ [ChatUI.userEntry q.clock (trim slot.display)])
        ∧ (trim slot.display = "" →
          (ChatUI.handleTimeslotSelectionBegin q slot.display).requests = q.requests
          ∧ (ChatUI.handleTimeslotSelectionBegin q slot.display).chatUI.chatMessages
            = q.chatUI.chatMessages)) := by
  have hr := renderedSlotCalls_botEntry p.clock response slots hk hs hne hm ht hp
  refine ⟨rfl, ?_, hr, ?_⟩
  · have := congrArg List.length hr
    simpa [ChatUI.renderedSlotCalls, slotCalls] using this
  · intro i slot hi
    refine ⟨?_, ?_, ?_⟩
    · unfold ChatUI.clickRenderedSlot
      rw [hr, List.get?_eq_getElem?, List.getElem?_map, hi]
      simp [reachable_windowChatUI hq]
    · intro h
      unfold ChatUI.handleTimeslotSelectionBegin
      rw [sendMessageBegin_nonblank _ h]
      exact ⟨rfl, rfl⟩
    · intro h
      unfold ChatUI.handleTimeslotSelectionBegin
      simp [ChatUI.sendMessageBegin, h]

/-! ### Requests along a run -/

/-- What `sendMessage` issues up to its `await`: nothing, or one chat message carrying
the chat gateway's identifier. -/
theorem sendMessageBegin_requests (p : Page) :
    ∃ new, (ChatUI.sendMessageBegin p).requests = p.requests ++ new ∧
      ∀ r ∈ new, r.isChatMessage = true ∧ r.sessionId = p.chatUI.apiClient.sessionId := by
  unfold ChatUI.sendMessageBegin
  dsimp only
  split_ifs
  · exact ⟨[], by simp, by simp⟩
  · refine ⟨[p.chatUI.apiClient.sendMessage p.clock (trim p.chatUI.messageInputValue)
      p.chatUI.currentConversationState], rfl, ?_⟩
    intro r hr
    rw [List.mem_singleton] at hr
    subst hr
    exact ⟨rfl, rfl⟩

theorem confirmBookingBegin_requests (p : Page) :
    ∃ new, (BookingFlow.confirmBookingBegin p).requests = p.requests ++ new ∧
      ∀ r ∈ new, r.isChatMessage = false ∧ r.sessionId = p.bookingFlow.apiClient.sessionId := by
  unfold BookingFlow.confirmBookingBegin
  split_ifs
  · exact ⟨[], by simp, by simp⟩
  · refine ⟨[p.bookingFlow.apiClient.confirmBooking p.bookingFlow.currentBookingData], rfl, ?_⟩
    intro r hr
    rw [List.mem_singleton] at hr
    subst hr
    exact ⟨rfl, rfl⟩

theorem confirmBookingSettle_requests (t : String) (p : Page)
    (result : CallResult Confirmation) :
    (BookingFlow.confirmBookingSettle t p result).requests = p.requests := by
  cases result with
  | ok r => rfl
  | failed e =>
    simp only [BookingFlow.confirmBookingSettle, BookingFlow.showErrorMessage]
    split_ifs <;> rfl

/-- Every request an event issues carries the identifier of the gateway it goes through. -/
theorem step_requests (p : Page) (e : Event) :
    ∃ new, (step p e).requests = p.requests ++ new ∧
      ∀ r ∈ new, r.sessionId = if r.isChatMessage then p.chatUI.apiClient.sessionId
        else p.bookingFlow.apiClient.sessionId := by
  have chat : ∀ q : Page, q.requests = p.requests → q.chatUI.apiClient = p.chatUI.apiClient →
      ∃ new, (ChatUI.sendMessageBegin q).requests = p.requests ++ new ∧
      ∀ r ∈ new, r.sessionId = if r.isChatMessage then p.chatUI.apiClient.sessionId
        else p.bookingFlow.apiClient.sessionId := by
    intro q hq hc
    obtain ⟨new, h1, h2⟩ := sendMessageBegin_requests q
    refine ⟨new, by rw [h1, hq], ?_⟩
    intro r hr
    obtain ⟨h3, h4⟩ := h2 r hr
    rw [h3, h4, hc]
    rfl
  have none : ∀ q : Page, q.requests = p.requests →
      ∃ new, q.requests = p.requests ++ new ∧
      ∀ r ∈ new, r.sessionId = if r.isChatMessage then p.chatUI.apiClient.sessionId
        else p.bookingFlow.apiClient.sessionId :=
    fun q hq => ⟨[], by simp [hq], by simp⟩
  cases e with
  | tick c => exact none _ rfl
  | input t => exact none _ rfl
  | clickSend =>
    simp only [step]
    split_ifs
    · exact none _ rfl
    · exact chat p rfl rfl
  | pressEnter => exact chat p rfl rfl
  | clickSlot s => exact chat _ rfl rfl
  | clickAction s => exact chat _ rfl rfl
  | chatSettled r => exact none _ (sendMessageSettle_frame p r).2.2.1
  | timerFired =>
    simp only [step]
    split
    · exact none _ rfl
    · exact none _ rfl
  | clickConfirm =>
    simp only [step]
    split_ifs
    · exact none _ rfl
    · exact none _ rfl
    · obtain ⟨new, h1, h2⟩ := confirmBookingBegin_requests p
      refine ⟨new, h1, ?_⟩
      intro r hr
      obtain ⟨h3, h4⟩ := h2 r hr
      rw [h3, h4]
      rfl
  | confirmSettled r =>
    simp only [step]
    split
    · exact none _ rfl
    · exact none _ (confirmBookingSettle_requests _ _ r)
  | clickEdit =>
    simp only [step, BookingFlow.editBooking]
    split_ifs
    · exact chat _ rfl rfl
    · exact none _ rfl
  | clickNewBooking =>
    simp only [step, BookingFlow.startNewBooking]
    split_ifs
    · exact none _ rfl
    · exact none _ rfl
  | closeModals => exact none _ rfl

theorem run_cons (p : Page) (e : Event) (events : List Event) :
    run p (e :: events) = run (step p e) events := rfl

/-- Along a run, every request carries the identifier of its gateway. -/
theorem run_requests (p : Page) (events : List Event)
    (h : ∀ r ∈ p.requests, r.sessionId = if r.isChatMessage then p.chatUI.apiClient.sessionId
        else p.bookingFlow.apiClient.sessionId) :
    ∀ r ∈ (run p events).requests,
      r.sessionId = if r.isChatMessage then p.chatUI.apiClient.sessionId
        else p.bookingFlow.apiClient.sessionId := by
  induction events generalizing p with
  | nil => exact h
  | cons e rest ih =>
    rw [run_cons]
    obtain ⟨new, h1, h2⟩ := step_requests p e
    obtain ⟨-, -, k3, k4⟩ := step_keeps p e
    have := ih (step p e) (by
      intro r hr
      rw [h1, List.mem_append] at hr
      rw [k3, k4]
      rcases hr with hr | hr
      · exact h r hr
      · exact h2 r hr)
    rw [k3, k4] at this
    exact this

/-- C8 counterexample. On the example page, loaded with both scripts, the chat message
and the booking confirmation of one page lifetime carry different session identifiers:
the claim that the confirmation's `session_id` is the one sent with the chat messages
fails there. -/
theorem one_session_identifier_per_page_counterexample :
    exampleConfirmedPage.requests.map Request.isChatMessage = [true, false]
    ∧ exampleConfirmedPage.requests.map Request.sessionId
        = ["session_1705313700000_k3j2h1g9x", "session_1705313700000_p0o9i8u7y"]
    ∧ "session_1705313700000_k3j2h1g9x" ≠ "session_1705313700000_p0o9i8u7y" := by
  decide

/-- C8 amended. Each gateway instance generates one session identifier when it is
constructed at page load and keeps it for the page lifetime: after any sequence of
events the chat controller's gateway still holds the identifier generated for it, the
booking controller's gateway the one generated for it, every chat message issued
carries the former and every booking confirmation issued carries the latter. -/
theorem session_identifier_fixed_per_gateway (confirmLabel : String) (clock : Clock)
    (chatNow : Nat) (chatSuffix : String) (bookingNow : Nat) (bookingSuffix : String)
    (events : List Event) :
    (run (pageLoad confirmLabel clock chatNow chatSuffix bookingNow bookingSuffix)
        events).chatUI.apiClient.sessionId = APIClient.generateSessionId chatNow chatSuffix
    ∧ (run (pageLoad confirmLabel clock chatNow chatSuffix bookingNow bookingSuffix)
        events).bookingFlow.apiClient.sessionId
        = APIClient.generateSessionId bookingNow bookingSuffix
    ∧ ∀ r ∈ (run (pageLoad confirmLabel clock chatNow chatSuffix bookingNow bookingSuffix)
        events).requests,
        r.sessionId = if r.isChatMessage then APIClient.generateSessionId chatNow chatSuffix
          else APIClient.generateSessionId bookingNow bookingSuffix := by
  obtain ⟨-, -, k3, k4⟩ := run_keeps
    (pageLoad confirmLabel clock chatNow chatSuffix bookingNow bookingSuffix) events
  refine ⟨by rw [k3]; rfl, by rw [k4]; rfl, ?_⟩
  exact run_requests (pageLoad confirmLabel clock chatNow chatSuffix bookingNow bookingSuffix)
    events (fun r hr => by simp [pageLoad, BookingFlow.new, ChatUI.new, ChatUI.showWelcomeMessage,
      ChatUI.displayBotMessage, ChatUI.appendEntry, blankPage] at hr)

/-! ### The conversation state label along a run -/

theorem sendMessageBegin_label (p : Page) :
    (ChatUI.sendMessageBegin p).chatUI.currentConversationState
      = p.chatUI.currentConversationState := by
  unfold ChatUI.sendMessageBegin
  dsimp only
  split_ifs <;> rfl

theorem sendMessageSettle_label (p : Page) (result : CallResult Response) :
    (ChatUI.sendMessageSettle p result).chatUI.currentConversationState =
      match result with
      | .ok response => some response.conversation_state
      | .failed _ => p.chatUI.currentConversationState := by
  cases result with
  | failed e => rfl
  | ok r =>
    by_cases h : r.conversation_state = "completed"
    · obtain ⟨h1, -, -⟩ := handleBookingCompletion_frame (ChatUI.sendMessageReceive p r)
      rcases (sendMessageSettle_ok p r).2 h with h4 | h4
      · rw [h4, h1]
        rfl
      · rw [h4]
        simp only [ChatUI.sendMessageCatch, ChatUI.displayErrorMessage, ChatUI.appendEntry,
          ChatUI.hideTypingIndicator, h1]
        rfl
    · rw [(sendMessageSettle_ok p r).1 h]
      rfl

theorem confirmBookingSettle_label (t : String) (p : Page) (result : CallResult Confirmation) :
    (BookingFlow.confirmBookingSettle t p result).chatUI.currentConversationState
      = p.chatUI.currentConversationState := by
  cases result with
  | ok r => rfl
  | failed e =>
    simp only [BookingFlow.confirmBookingSettle, BookingFlow.showErrorMessage]
    split_ifs <;> rfl

/-- One event moves the conversation state label as the specification prescribes. -/
theorem step_label (p : Page) (e : Event) (label : String)
    (hl : p.chatUI.currentConversationState = some label) (hw : p.windowChatUI = true) :
    (step p e).chatUI.currentConversationState = some (specLabelStep label e) := by
  cases e with
  | tick c => exact hl
  | input t => exact hl
  | clickSend =>
    simp only [step, specLabelStep]
    split_ifs
    · exact hl
    · rw [sendMessageBegin_label]; exact hl
  | pressEnter =>
    simp only [step, specLabelStep]
    rw [sendMessageBegin_label]; exact hl
  | clickSlot s =>
    simp only [step, specLabelStep, ChatUI.handleTimeslotSelectionBegin]
    rw [sendMessageBegin_label]; exact hl
  | clickAction s =>
    simp only [step, specLabelStep, ChatUI.handleSuggestedActionBegin]
    rw [sendMessageBegin_label]; exact hl
  | chatSettled r =>
    simp only [step]
    rw [sendMessageSettle_label]
    cases r with
    | ok response => rfl
    | failed err => exact hl
  | timerFired =>
    simp only [step, specLabelStep]
    split
    · exact hl
    · exact hl
  | clickConfirm =>
    simp only [step, specLabelStep, BookingFlow.confirmBookingBegin]
    split_ifs <;> exact hl
  | confirmSettled r =>
    simp only [step, specLabelStep]
    split
    · exact hl
    · rw [confirmBookingSettle_label]; exact hl
  | clickEdit =>
    simp only [step, specLabelStep, BookingFlow.editBooking]
    split_ifs
    · rw [sendMessageBegin_label]; exact hl
    · exact hl
  | clickNewBooking =>
    simp only [step, specLabelStep, BookingFlow.startNewBooking]
    rw [if_pos (by exact hw)]
    rfl
  | closeModals => exact hl

theorem run_label (p : Page) (events : List Event) (label : String)
    (hl : p.chatUI.currentConversationState = some label) (hw : p.windowChatUI = true) :
    (run p events).chatUI.currentConversationState
      = some (events.foldl specLabelStep label) := by
  induction events generalizing p label with
  | nil => exact hl
  | cons e rest ih =>
    rw [run_cons, List.foldl_cons]
    exact ih (step p e) (specLabelStep label e) (step_label p e label hl hw)
      ((step_keeps p e).1.trans hw)

/-- C10. In every sequence of events since page load (sends begun by the button, the
Enter key, a slot, an action or the edit button, calls settling with success or
failure, resets by the new-booking button, and everything else that can happen on the
page), the `conversation_state` that `ChatUI.sendMessage` posts with a message is the
label the specification prescribes: the `conversation_state` of the most recent
successful server response since page load or the last reset, and `collecting_contact`
when there has been none. -/
theorem sendMessage_posts_latest_server_label (confirmLabel : String) (clock : Clock)
    (chatNow : Nat) (chatSuffix : String) (bookingNow : Nat) (bookingSuffix : String)
    (events : List Event) (result : CallResult Response) (p : Page)
    (hp : p = run (pageLoad confirmLabel clock chatNow chatSuffix bookingNow bookingSuffix)
      events)
    (h : trim p.chatUI.messageInputValue ≠ "") :
    (ChatUI.sendMessage p result).requests
      = p.requests ++ [p.chatUI.apiClient.sendMessage p.clock (trim p.chatUI.messageInputValue)
          (some (specLabel events))]
    ∧ (p.chatUI.apiClient.sendMessage p.clock (trim p.chatUI.messageInputValue)
          (some (specLabel events))).conversationState = some (specLabel events)
    ∧ (ChatUI.sendMessageBegin p).requests = (ChatUI.sendMessage p result).requests := by
  have hl : p.chatUI.currentConversationState = some (specLabel events) := by
    rw [hp]
    exact run_label (pageLoad confirmLabel clock chatNow chatSuffix bookingNow bookingSuffix)
      events "collecting_contact" rfl rfl
  rw [sendMessage_nonblank _ _ h, sendMessageBegin_nonblank _ h,
    (sendMessageSettle_frame _ result).2.2.1, ← hl]
  exact ⟨rfl, rfl, rfl⟩

/-! ### Booking confirmation -/

/-- C9, the code at the failing input. On the example page with the summary overlay
open, a failed confirmation restores the confirm button (enabled, original label), but
a successful one leaves it disabled with the busy label `Processing...`; when the user
then starts a new booking and reaches the summary overlay again, the button is still
disabled and busy, and a click on it issues no request. -/
theorem confirmBooking_success_leaves_confirm_button_busy :
    exampleSummaryPage.bookingFlow.currentBookingData.truthy = true
    ∧ exampleSummaryPage.confirmButton = { textContent := "Confirm Booking", disabled := false }
    ∧ (BookingFlow.confirmBooking exampleSummaryPage
        (.failed "HTTP error! status: 500")).confirmButton
        = { textContent := "Confirm Booking", disabled := false }
    ∧ (BookingFlow.confirmBooking exampleSummaryPage (.ok exampleConfirmation)).confirmButton
        = { textContent := "Processing...", disabled := true }
    ∧ exampleSecondSummaryPage.bookingFlow.bookingModalDisplay = "flex"
    ∧ exampleSecondSummaryPage.confirmButton
        = { textContent := "Processing...", disabled := true }
    ∧ (step exampleSecondSummaryPage .clickConfirm).requests.length
        = exampleSecondSummaryPage.requests.length := by
  decide

/-! ### Further witnesses -/

theorem examplePage_reachable : Reachable examplePage :=
  ⟨"Confirm Booking", exampleClock, 1705313700000, "k3j2h1g9x", 1705313700000, "p0o9i8u7y",
    [Event.input "John Smith"], rfl⟩

/-- Witness of C5 amended: the example slot response displayed on the example page, its
second button clicked there. -/
theorem timeslot_click_sends_trimmed_label_witness :
    exampleSlotResponse.message_type = "timeslot_selection"
    ∧ isPlainMessage exampleSlotResponse.message = true
    ∧ Reachable examplePage
    ∧ ChatUI.renderedSlotCalls (ChatUI.botEntry examplePage.clock exampleSlotResponse)
        = [exampleSlot, { display := "10:30 AM", start_time := "10:30", end_time := "11:30" }].map
            (fun slot => some slot.display)
    ∧ ChatUI.clickRenderedSlot examplePage (ChatUI.botEntry examplePage.clock exampleSlotResponse) 1
        = some (ChatUI.handleTimeslotSelectionBegin examplePage "10:30 AM")
    ∧ (ChatUI.handleTimeslotSelectionBegin examplePage "10:30 AM").requests
        = examplePage.requests ++ [examplePage.chatUI.apiClient.sendMessage examplePage.clock
            (trim "10:30 AM") examplePage.chatUI.currentConversationState] :=
  have h := timeslot_click_sends_trimmed_label examplePage examplePage exampleSlotResponse
    [exampleSlot, { display := "10:30 AM", start_time := "10:30", end_time := "11:30" }]
    (by decide) rfl (by simp) (by decide) (by decide) (by decide) examplePage_reachable
  ⟨by decide, by decide, examplePage_reachable, h.2.2.1,
    (h.2.2.2 1 { display := "10:30 AM", start_time := "10:30", end_time := "11:30" } rfl).1,
    ((h.2.2.2 1 { display := "10:30 AM", start_time := "10:30", end_time := "11:30" } rfl).2.1
      (by decide)).1⟩

theorem exampleBooking_values_convert :
    ∀ key ∈ ["details", "job_type", "date", "duration", "location", "budget",
        "contact_name", "phone", "email"],
      ∀ value, [("job_type", JsVal.str "Photography"), ("date", JsVal.str "2024-02-01"),
        ("contact_name", JsVal.str "John Smith")].lookup key = some value →
        ∃ s, value.toStr = .ok s := by
  intro key hkey value hvalue
  simp only [List.mem_cons, List.mem_singleton, List.not_mem_nil, or_false] at hkey
  rcases hkey with rfl | rfl | rfl | rfl | rfl | rfl | rfl | rfl | rfl <;>
    first
      | (simp [List.lookup] at hvalue; done)
      | (simp [List.lookup] at hvalue; subst hvalue; exact ⟨_, rfl⟩)

/-- Witness of C6 amended: the example booking has three string fields and no
`duration`. -/
theorem formatBookingSummary_not_specified_witness :
    (∀ key ∈ ["details", "job_type", "date", "duration", "location", "budget",
        "contact_name", "phone", "email"],
      ∀ value, [("job_type", JsVal.str "Photography"), ("date", JsVal.str "2024-02-01"),
        ("contact_name", JsVal.str "John Smith")].lookup key = some value →
        ∃ s, value.toStr = .ok s)
    ∧ ∃ html, BookingFlow.formatBookingSummary exampleBooking = .ok html ∧
      ∃ pre post, html = pre ++
          notSpecifiedMarkup "⏱️" "Duration" ++ post := by
  have hp := exampleBooking_values_convert
  refine ⟨hp, ?_⟩
  obtain ⟨html, h1, h2⟩ := (formatBookingSummary_not_specified
    [("job_type", .str "Photography"), ("date", .str "2024-02-01"),
     ("contact_name", .str "John Smith")] hp).2.2.2
  exact ⟨html, h1, h2 { key := "duration", label := "Duration", icon := "⏱️" } (by decide)
    rfl⟩

/-- Witness of C3 amended: the example page, reached by typing a name after load,
receiving the example terminal response; the overlay shows the example booking. -/
theorem sendMessage_shows_summary_iff_completed_witness :
    Reachable examplePage ∧ trim examplePage.chatUI.messageInputValue ≠ ""
    ∧ exampleCompleted.conversation_state = "completed"
    ∧ (∃ html, BookingFlow.formatBookingSummary exampleBooking = .ok html
      ∧ (ChatUI.sendMessage examplePage (.ok exampleCompleted)).shownSummaries
          = examplePage.shownSummaries ++ [exampleBooking]
      ∧ (ChatUI.sendMessage examplePage (.ok exampleCompleted)).bookingFlow.bookingModalDisplay
          = "flex"
      ∧ (ChatUI.sendMessage examplePage (.ok exampleCompleted)).bookingFlow.bookingSummary = html
      ∧ (ChatUI.sendMessage examplePage (.ok exampleCompleted)).bookingFlow.currentBookingData
          = exampleBooking) := by
  have hreach : Reachable examplePage :=
    ⟨"Confirm Booking", exampleClock, 1705313700000, "k3j2h1g9x", 1705313700000, "p0o9i8u7y",
      [Event.input "John Smith"], rfl⟩
  have hnonblank : trim examplePage.chatUI.messageInputValue ≠ "" := by decide
  obtain ⟨h1, -, h3⟩ :=
    sendMessage_shows_summary_iff_completed examplePage exampleCompleted hreach hnonblank
  obtain ⟨html, hhtml⟩ := h3 (printable_obj _ exampleBooking_values_convert)
  exact ⟨hreach, hnonblank, rfl, html, hhtml, h1 rfl html hhtml⟩

/-- Witness of C7: the example page with only spaces in the input. -/
theorem sendMessage_blank_input_does_nothing_witness :
    trim exampleBlankPage.chatUI.messageInputValue = ""
    ∧ (ChatUI.sendMessage exampleBlankPage (.ok exampleResponse)).requests
        = exampleBlankPage.requests
    ∧ (ChatUI.sendMessage exampleBlankPage (.ok exampleResponse)).chatUI.chatMessages
        = exampleBlankPage.chatUI.chatMessages :=
  ⟨by decide,
    (sendMessage_blank_input_does_nothing exampleBlankPage (.ok exampleResponse)
      (by decide)).2.2.1,
    (sendMessage_blank_input_does_nothing exampleBlankPage (.ok exampleResponse)
      (by decide)).2.2.2.1⟩

/-- Witness of C10: after load the user sends a name, the server answers with the
label `collecting_service`, and the user types the next message. -/
theorem sendMessage_posts_latest_server_label_witness :
    trim (run exampleLoaded [.input "John Smith", .pressEnter, .chatSettled (.ok exampleResponse),
      .input "Photography"]).chatUI.messageInputValue ≠ ""
    ∧ specLabel [.input "John Smith", .pressEnter, .chatSettled (.ok exampleResponse),
      .input "Photography"] = "collecting_service"
    ∧ (ChatUI.sendMessage (run exampleLoaded [.input "John Smith", .pressEnter,
        .chatSettled (.ok exampleResponse), .input "Photography"])
        (.failed "HTTP error! status: 500")).requests.map Request.conversationState
      = [some "collecting_contact", some "collecting_service"] := by
  refine ⟨by decide, by decide, ?_⟩
  rw [(sendMessage_posts_latest_server_label "Confirm Booking" exampleClock 1705313700000
    "k3j2h1g9x" 1705313700000 "p0o9i8u7y"
    [.input "John Smith", .pressEnter, .chatSettled (.ok exampleResponse), .input "Photography"]
    (.failed "HTTP error! status: 500")
    (run exampleLoaded [.input "John Smith", .pressEnter, .chatSettled (.ok exampleResponse),
      .input "Photography"]) rfl (by decide)).1]
  decide

/-! ### Error entries after a successful call -/

/-- The success message of `handleBookingCompletion` is scheduled, or an exception leaves
the function with the page untouched, according to `completionMessageThrows`. -/
theorem scheduleCompletionMessage_cases (p : Page) :
    (ChatUI.completionMessageThrows p.chatUI.bookingData = true
      ∧ ∃ e, ChatUI.scheduleCompletionMessage p = .thrown p e)
    ∨ (ChatUI.completionMessageThrows p.chatUI.bookingData = false
      ∧ ∃ timers, ChatUI.scheduleCompletionMessage p = .normal { p with timers := timers }) := by
  unfold ChatUI.completionMessageThrows ChatUI.scheduleCompletionMessage
  cases getProp p.chatUI.bookingData "calendar_event" with
  | error e => exact Or.inl ⟨rfl, e, rfl⟩
  | ok ce =>
    dsimp only
    by_cases hce : ce.truthy = true
    · rw [if_pos hce]
      cases getProp p.chatUI.bookingData "job_type" with
      | error e => exact Or.inl ⟨by simp [hce], e, rfl⟩
      | ok jt =>
        dsimp only
        cases toLowerCase jt with
        | error e => exact Or.inl ⟨by simp [hce], e, rfl⟩
        | ok lower => exact Or.inr ⟨by simp, _, rfl⟩
    · rw [if_neg hce]
      exact Or.inr ⟨by simp [hce], p.timers, rfl⟩

/-- The method `handleBookingCompletion` throws exactly when the
summary or the success message cannot be built; the chat controller's fields are
untouched either way. -/
theorem handleBookingCompletion_cases (p : Page) :
    (ChatUI.completionThrows p.windowBookingFlow p.chatUI.bookingData = true
      ∧ ∃ q e, ChatUI.handleBookingCompletion p = .thrown q e ∧ q.chatUI = p.chatUI
          ∧ q.clock = p.clock)
    ∨ (ChatUI.completionThrows p.windowBookingFlow p.chatUI.bookingData = false
      ∧ ∃ q, ChatUI.handleBookingCompletion p = .normal q ∧ q.chatUI = p.chatUI) := by
  unfold ChatUI.handleBookingCompletion ChatUI.completionThrows
  split_ifs with hw
  · cases hf : BookingFlow.formatBookingSummary p.chatUI.bookingData with
    | error e =>
      refine Or.inl ⟨by simp [hw, Except.toBool], ?_⟩
      simp only [BookingFlow.showBookingSummary, hf]
      exact ⟨_, e, rfl, rfl, rfl⟩
    | ok html =>
      simp only [BookingFlow.showBookingSummary, hf]
      rcases scheduleCompletionMessage_cases
        { p with
          bookingFlow := { p.bookingFlow with
            currentBookingData := p.chatUI.bookingData, bookingSummary := html,
            bookingModalDisplay := "flex" },
          shownSummaries := p.shownSummaries ++ [p.chatUI.bookingData] } with
        ⟨h1, e, h2⟩ | ⟨h1, t, h2⟩
      · exact Or.inl ⟨by simpa [hw, Except.toBool] using h1, _, e, h2, rfl, rfl⟩
      · exact Or.inr ⟨by simpa [hw, Except.toBool] using h1, _, h2, rfl⟩
  · rcases scheduleCompletionMessage_cases p with ⟨h1, e, h2⟩ | ⟨h1, t, h2⟩
    · exact Or.inl ⟨by simpa [hw] using h1, _, e, h2, rfl, rfl⟩
    · exact Or.inr ⟨by simpa [hw] using h1, _, h2, rfl⟩

/-- The transcript after a successful call: the user entry, the bot entry, and then the
error entry of the `catch` block exactly when the response is terminal and
`handleBookingCompletion` throws on its booking data. -/
theorem sendMessage_ok_transcript (p : Page) (response : Response)
    (h : trim p.chatUI.messageInputValue ≠ "") :
    (ChatUI.sendMessage p (.ok response)).chatUI.chatMessages
      = p.chatUI.chatMessages ++
          [ChatUI.userEntry p.clock (trim p.chatUI.messageInputValue),
           ChatUI.botEntry p.clock response]
        ++ (if response.conversation_state = "completed"
              ∧ ChatUI.completionThrows p.windowBookingFlow response.bookingDataOrEmpty = true
            then [ChatUI.errorEntry p.clock "Sorry, I encountered an error. Please try again."]
            else []) := by
  rw [sendMessage_nonblank p _ h]
  by_cases hc : response.conversation_state = "completed"
  · have hbd : (ChatUI.sendMessageReceive
        (ChatUI.sendMessageIssue p (trim p.chatUI.messageInputValue)) response).chatUI.bookingData
        = response.bookingDataOrEmpty := rfl
    have hwf : (ChatUI.sendMessageReceive
        (ChatUI.sendMessageIssue p (trim p.chatUI.messageInputValue))
        response).windowBookingFlow = p.windowBookingFlow := rfl
    rcases handleBookingCompletion_cases
      (ChatUI.sendMessageReceive (ChatUI.sendMessageIssue p (trim p.chatUI.messageInputValue))
        response) with ⟨h1, q, e, h2, h3, h4⟩ | ⟨h1, q, h2, h3⟩
    · rw [hbd, hwf] at h1
      simp only [ChatUI.sendMessageSettle, hc, if_true, h2, h1, and_self]
      simp only [ChatUI.sendMessageCatch, ChatUI.displayErrorMessage, ChatUI.appendEntry,
        ChatUI.hideTypingIndicator, h3, h4]
      simp [ChatUI.sendMessageReceive, ChatUI.sendMessageIssue, ChatUI.displayBotMessage,
        ChatUI.displayUserMessage, ChatUI.appendEntry, ChatUI.hideTypingIndicator,
        ChatUI.showTypingIndicator]
    · rw [hbd, hwf] at h1
      simp only [ChatUI.sendMessageSettle, hc, if_true, h2, h1, h3]
      simp [ChatUI.sendMessageReceive, ChatUI.sendMessageIssue, ChatUI.displayBotMessage,
        ChatUI.displayUserMessage, ChatUI.appendEntry, ChatUI.hideTypingIndicator,
        ChatUI.showTypingIndicator]
  · rw [(sendMessageSettle_ok _ response).1 hc]
    simp [hc, ChatUI.sendMessageReceive, ChatUI.sendMessageIssue, ChatUI.displayBotMessage,
      ChatUI.displayUserMessage, ChatUI.appendEntry, ChatUI.hideTypingIndicator,
      ChatUI.showTypingIndicator]

/-- A mapping with a truthy `calendar_event` and no `job_type` makes the success message
throw. -/
theorem completionMessageThrows_without_job_type (props : List (String × JsVal))
    (calendarEvent : JsVal) (hce : props.lookup "calendar_event" = some calendarEvent)
    (ht : calendarEvent.truthy = true) (hjt : props.lookup "job_type" = none) :
    ChatUI.completionMessageThrows (.obj props) = true := by
  simp [ChatUI.completionMessageThrows, getProp, hce, ht, hjt, toLowerCase]

/-- C11, the code at the failing input. On the example page the call succeeds with a
terminal response whose booking data has a `calendar_event` but no `job_type`: the
summary overlay is shown and the state label is taken over, yet `sendMessage` appends,
after the user entry and the bot entry, the error entry of its `catch` block, and the
delayed success message is never scheduled. -/
theorem sendMessage_successful_response_appends_error_entry :
    trim examplePage.chatUI.messageInputValue ≠ ""
    ∧ exampleCalendarCompleted.conversation_state = "completed"
    ∧ ChatUI.completionMessageThrows exampleCalendarCompleted.bookingDataOrEmpty = true
    ∧ (ChatUI.sendMessage examplePage (.ok exampleCalendarCompleted)).chatUI.chatMessages
      = examplePage.chatUI.chatMessages ++
          [ChatUI.userEntry exampleClock "John Smith",
           ChatUI.botEntry exampleClock exampleCalendarCompleted,
           ChatUI.errorEntry exampleClock "Sorry, I encountered an error. Please try again."]
    ∧ (ChatUI.errorEntry exampleClock
        "Sorry, I encountered an error. Please try again.").kind = .error
    ∧ (ChatUI.sendMessage examplePage
        (.ok exampleCalendarCompleted)).chatUI.currentConversationState = some "completed"
    ∧ (ChatUI.sendMessage examplePage
        (.ok exampleCalendarCompleted)).bookingFlow.bookingModalDisplay = "flex"
    ∧ (ChatUI.sendMessage examplePage (.ok exampleCalendarCompleted)).shownSummaries.length = 1
    ∧ (ChatUI.sendMessage examplePage (.ok exampleCalendarCompleted)).timers.length = 0 := by
  refine ⟨by decide, by decide, by decide, ?_, by decide, by decide, by decide, by decide,
    by decide⟩
  rw [sendMessage_ok_transcript examplePage exampleCalendarCompleted (by decide),
    if_pos ⟨by decide, by decide⟩, List.append_assoc]
  rfl

end JobBot
